import Mathlib

/-!
# HuntT1050 (New Service): the rule chain of `ScanNormal` and `ScanIntensive`

A shallow embedding of `BLUESPAWN-client/src/hunt/hunts/HuntT1050.cpp`.

* `std::wstring` is `String`; `std::wstring::find(needle) != npos` is `wfind`.
* The event log query `Get7045Events()` is the input list `queryResults`.
* The helpers the hunt calls but does not define (`IsLolbinMalicious`,
  `GetImagePathFromCommand`, `FileSystem::File`, `YaraScanner::ScanFile`,
  `GetShannonEntropy`) are the fields of `Collaborators`; every call the code
  makes to one of them is appended to `ScanState.calls`.
* `Reaction` is the list of notifications it received, oldest first.
* `std::map<std::pair<std::wstring, std::wstring>, bool>` is an association
  list that is only read through `count` / `at_` and only written by `emplace`.
* `int detections` is an `Int`; the C++ value agrees with it as long as the
  total stays below `2 ^ 31` (the code only ever adds 1 or 2 per event).
* `double` entropies are the rationals they denote (every finite double is a
  rational, and `3.00`, `5.00` are exact), compared with `<` and `>`; the
  entropy of a string is a finite number, so no not-a-number value is modelled.
-/

namespace Hunts

/-- An `EventLogs::EventLogItem` of event 7045, by the four properties the query asks for.
`GetProperty(L"Event/EventData/Data[@Name='ServiceName']")` is the field `ServiceName`,
and so on. -/
structure EventLogItem where
  ServiceName : String
  ImagePath : String
  ServiceType : String
  StartType : String
deriving DecidableEq

/-- The key type of the `findings` map: `std::pair<std::wstring, std::wstring>`. -/
abbrev Key := String × String

/-- The pair `{ imageName, cmd }` built at the top of the loop body. -/
def EventLogItem.pair (result : EventLogItem) : Key :=
  (result.ServiceName, result.ImagePath)

/-- A call received by the `Reaction`. -/
inductive Notification where
  | BeginHunt
  | EventIdentified (result : EventLogItem)
  | FileIdentified (file : String)
  | EndHunt
deriving DecidableEq

/-- A call made to one of the helpers the hunt relies on. -/
inductive Call where
  | IsLolbinMalicious (cmd : String)
  | GetImagePathFromCommand (cmd : String)
  | File (imagePath : String)
  | GetFileExists (imagePath : String)
  | GetFileSigned (imagePath : String)
  | ScanFile (imagePath : String)
  | GetShannonEntropy (imageName : String)
deriving DecidableEq

/-- The helpers used by the hunt, as deterministic functions. -/
structure Collaborators where
  IsLolbinMalicious : String → Bool
  GetImagePathFromCommand : String → String
  GetFileExists : String → Bool
  GetFileSigned : String → Bool
  ScanFile : String → Bool
  GetShannonEntropy : String → ℚ

/-- Whether `needle` occurs in `s` starting at some position: on lists of characters. -/
def findFrom (needle : List Char) : List Char → Bool
  | [] => needle.isPrefixOf []
  | c :: s => needle.isPrefixOf (c :: s) || findFrom needle s

/-- The test `s.find(needle) != std::wstring::npos`: an exact, character by character match. -/
def wfind (s needle : String) : Bool :=
  findFrom needle.toList s.toList

/-- The map `findings`. -/
abbrev Findings := List (Key × Bool)

/-- The member `std::map::count`: 1 when the key is present, 0 otherwise. -/
def Findings.count (findings : Findings) (pair : Key) : Nat :=
  if (findings.lookup pair).isSome then 1 else 0

/-- The member `std::map::at` (written `at_`, the word `at` being reserved): the value stored
for the key, and none when the key is absent, where the C++ throws. -/
def Findings.at_ (findings : Findings) (pair : Key) : Option Bool :=
  findings.lookup pair

/-- The member `std::map::emplace`: inserts only when the key is absent. -/
def Findings.emplace (findings : Findings) (pair : Key) (value : Bool) : Findings :=
  if (findings.lookup pair).isSome then findings else (pair, value) :: findings

/-- The variables a scan mutates, with the log of helper calls. -/
structure ScanState where
  detections : Int
  findings : Findings
  reaction : List Notification
  calls : List Call
deriving DecidableEq

namespace ScanState

/-- Records a call to a helper. -/
def call (st : ScanState) (c : Call) : ScanState :=
  { st with calls := st.calls ++ [c] }

/-- The statement `reaction.EventIdentified(EventLogs::EventLogItemToDetection(result))`. -/
def EventIdentified (st : ScanState) (result : EventLogItem) : ScanState :=
  { st with reaction := st.reaction ++ [Notification.EventIdentified result] }

/-- The statement `reaction.FileIdentified(std::make_shared<FILE_DETECTION>(file))`. -/
def FileIdentified (st : ScanState) (file : String) : ScanState :=
  { st with reaction := st.reaction ++ [Notification.FileIdentified file] }

/-- The statement `findings.emplace(pair, value)`. -/
def emplace (st : ScanState) (pair : Key) (value : Bool) : ScanState :=
  { st with findings := st.findings.emplace pair value }

/-- The statements `detections++` (n = 1) and `detections += 2` (n = 2). -/
def addDetections (st : ScanState) (n : Int) : ScanState :=
  { st with detections := st.detections + n }

end ScanState

namespace HuntT1050

/-- The body of the `for` loop of `HuntT1050::ScanNormal`, for one `result`. -/
def ScanNormal.body (c : Collaborators) (st : ScanState) (result : EventLogItem) : ScanState :=
  let imageName := result.ServiceName
  let cmd := result.ImagePath
  let pair : Key := (imageName, cmd)
  if st.findings.count pair ≠ 0 then
    if st.findings.at_ pair = some true then
      st.EventIdentified result
    else st
  else
    let st := st.call (.IsLolbinMalicious cmd)
    if c.IsLolbinMalicious cmd then
      ((st.EventIdentified result).emplace pair true).addDetections 1
    else
      let st := st.call (.GetImagePathFromCommand cmd)
      let imagePath := c.GetImagePathFromCommand cmd
      let st := st.call (.File imagePath)
      let st := st.call (.GetFileExists imagePath)
      let st := if c.GetFileExists imagePath then st.call (.GetFileSigned imagePath) else st
      if c.GetFileExists imagePath && !c.GetFileSigned imagePath then
        let st := st.EventIdentified result
        let st := st.call (.ScanFile imagePath)
        let st := st.FileIdentified imagePath
        (st.addDetections 2).emplace pair true
      else if wfind imageName "PSEXESVC" then
        ((st.EventIdentified result).addDetections 1).emplace pair true
      else if wfind imageName "mimikatz" || wfind imageName "mimidrv"
          || wfind imagePath "mimidrv.sys" then
        (((st.EventIdentified result).FileIdentified imagePath).addDetections 2).emplace pair true
      else if false && (decide (c.GetShannonEntropy imageName < 3.00)
          || decide (c.GetShannonEntropy imageName > 5.00)) then
        (((st.EventIdentified result).FileIdentified imagePath).addDetections 2).emplace pair true
      else
        st.emplace pair false

/-- The body of the `for` loop of `HuntT1050::ScanIntensive`, for one `result`. The last
condition is evaluated left to right with short circuit, so the entropy is computed only for
an existing file, and a second time only when it is not below 3.00. -/
def ScanIntensive.body (c : Collaborators) (st : ScanState) (result : EventLogItem) : ScanState :=
  let imageName := result.ServiceName
  let cmd := result.ImagePath
  let pair : Key := (imageName, cmd)
  if st.findings.count pair ≠ 0 then
    if st.findings.at_ pair = some true then
      st.EventIdentified result
    else st
  else
    let st := st.call (.IsLolbinMalicious cmd)
    if c.IsLolbinMalicious cmd then
      ((st.EventIdentified result).emplace pair true).addDetections 1
    else
      let st := st.call (.GetImagePathFromCommand cmd)
      let imagePath := c.GetImagePathFromCommand cmd
      let st := st.call (.File imagePath)
      let st := st.call (.GetFileExists imagePath)
      let st := if c.GetFileExists imagePath then st.call (.GetFileSigned imagePath) else st
      if c.GetFileExists imagePath && !c.GetFileSigned imagePath then
        let st := st.EventIdentified result
        let st := st.call (.ScanFile imagePath)
        let st := st.FileIdentified imagePath
        (st.addDetections 2).emplace pair true
      else if wfind imageName "PSEXESVC" then
        ((st.EventIdentified result).addDetections 1).emplace pair true
      else if wfind imageName "mimikatz" || wfind imageName "mimidrv"
          || wfind imagePath "mimidrv.sys" then
        (((st.EventIdentified result).FileIdentified imagePath).addDetections 2).emplace pair true
      else
        let st := st.call (.GetFileExists imagePath)
        let st := if c.GetFileExists imagePath then st.call (.GetShannonEntropy imageName) else st
        let st := if c.GetFileExists imagePath && !decide (c.GetShannonEntropy imageName < 3.00)
          then st.call (.GetShannonEntropy imageName) else st
        if !c.GetFileExists imagePath || (decide (c.GetShannonEntropy imageName < 3.00)
            || decide (c.GetShannonEntropy imageName > 5.00)) then
          (((st.EventIdentified result).FileIdentified imagePath).addDetections 2).emplace pair true
        else
          st.emplace pair false

/-- The state at the start of the loop: `reaction.BeginHunt(...)` has been called,
`detections` is 0 and `findings` is empty. -/
def start : ScanState :=
  { detections := 0, findings := [], reaction := [Notification.BeginHunt], calls := [] }

/-- The statement `reaction.EndHunt()`. -/
def finish (st : ScanState) : ScanState :=
  { st with reaction := st.reaction ++ [Notification.EndHunt] }

/-- The state of `ScanNormal` after the loop has run over `queryResults[0..n)`. -/
def ScanNormal.loop (c : Collaborators) (queryResults : List EventLogItem) : ScanState :=
  queryResults.foldl (ScanNormal.body c) start

/-- The state of `ScanIntensive` after the loop has run over `queryResults[0..n)`. -/
def ScanIntensive.loop (c : Collaborators) (queryResults : List EventLogItem) : ScanState :=
  queryResults.foldl (ScanIntensive.body c) start

/-- The state in which `HuntT1050::ScanNormal` returns. -/
def ScanNormal.run (c : Collaborators) (queryResults : List EventLogItem) : ScanState :=
  finish (ScanNormal.loop c queryResults)

/-- The state in which `HuntT1050::ScanIntensive` returns. -/
def ScanIntensive.run (c : Collaborators) (queryResults : List EventLogItem) : ScanState :=
  finish (ScanIntensive.loop c queryResults)

/-- The value `HuntT1050::ScanNormal` returns: `detections`. -/
def ScanNormal (c : Collaborators) (queryResults : List EventLogItem) : Int :=
  (ScanNormal.run c queryResults).detections

/-- The value `HuntT1050::ScanIntensive` returns: `detections`. -/
def ScanIntensive (c : Collaborators) (queryResults : List EventLogItem) : Int :=
  (ScanIntensive.run c queryResults).detections

end HuntT1050


/-! ## The rule chain as the specification words it

The second description of the loop body: which rule is the first whose condition holds,
what that rule is worth, and one step of the engine written with it. `body_eq_step` below
shows that the code of both scans is this step. -/

/-- The two scan levels the hunt supports. -/
inductive Profile where
  | Normal
  | Intensive
deriving DecidableEq

/-- The rules of the chain, in their order, and the fall-through. -/
inductive Rule where
  | Lolbin
  | Unsigned
  | PSExec
  | Mimikatz
  | Anomaly
  | NoDetection
deriving DecidableEq

/-- The severity increment of a rule. -/
def Rule.severity : Rule → Int
  | .Lolbin => 1
  | .Unsigned => 2
  | .PSExec => 1
  | .Mimikatz => 2
  | .Anomaly => 2
  | .NoDetection => 0

/-- The verdict a rule records. -/
def Rule.verdict : Rule → Bool
  | .NoDetection => false
  | _ => true

/-- Whether a rule emits "file identified" (all rules but the fall-through emit
"event identified"). -/
def Rule.fileIdentified : Rule → Bool
  | .Unsigned => true
  | .Mimikatz => true
  | .Anomaly => true
  | _ => false

/-- The trigger of rule 6: never in Normal; in Intensive a missing image file, or an entropy
of the service name below 3.00 or above 5.00. -/
def anomalyTrigger (p : Profile) (c : Collaborators) (imageName imagePath : String) : Bool :=
  match p with
  | .Normal => false
  | .Intensive => !c.GetFileExists imagePath
      || (decide (c.GetShannonEntropy imageName < 3) || decide (c.GetShannonEntropy imageName > 5))

/-- The first rule of the chain whose condition holds for a key. -/
def firstMatch (p : Profile) (c : Collaborators) (pair : Key) : Rule :=
  let imagePath := c.GetImagePathFromCommand pair.2
  if c.IsLolbinMalicious pair.2 then .Lolbin
  else if c.GetFileExists imagePath && !c.GetFileSigned imagePath then .Unsigned
  else if wfind pair.1 "PSEXESVC" then .PSExec
  else if wfind pair.1 "mimikatz" || wfind pair.1 "mimidrv" || wfind imagePath "mimidrv.sys"
    then .Mimikatz
  else if anomalyTrigger p c pair.1 imagePath then .Anomaly
  else .NoDetection

/-- The helper calls that evaluating rule 6 costs. -/
def anomalyCalls (p : Profile) (c : Collaborators) (imageName imagePath : String) : List Call :=
  match p with
  | .Normal => []
  | .Intensive =>
      if c.GetFileExists imagePath then
        if c.GetShannonEntropy imageName < 3 then
          [.GetFileExists imagePath, .GetShannonEntropy imageName]
        else
          [.GetFileExists imagePath, .GetShannonEntropy imageName, .GetShannonEntropy imageName]
      else [.GetFileExists imagePath]

/-- The helper calls that classifying a key not seen before costs, in order. -/
def helperCalls (p : Profile) (c : Collaborators) (pair : Key) : List Call :=
  let imagePath := c.GetImagePathFromCommand pair.2
  let resolve : List Call :=
    [.IsLolbinMalicious pair.2, .GetImagePathFromCommand pair.2, .File imagePath,
      .GetFileExists imagePath]
      ++ (if c.GetFileExists imagePath then [.GetFileSigned imagePath] else [])
  match firstMatch p c pair with
  | .Lolbin => [.IsLolbinMalicious pair.2]
  | .Unsigned => resolve ++ [.ScanFile imagePath]
  | .PSExec => resolve
  | .Mimikatz => resolve
  | .Anomaly => resolve ++ anomalyCalls p c pair.1 imagePath
  | .NoDetection => resolve ++ anomalyCalls p c pair.1 imagePath

/-- The notifications a rule emits for an event. -/
def Rule.notifications (r : Rule) (c : Collaborators) (result : EventLogItem) :
    List Notification :=
  (if r.verdict then [Notification.EventIdentified result] else [])
    ++ (if r.fileIdentified then
          [Notification.FileIdentified (c.GetImagePathFromCommand result.ImagePath)] else [])

/-- One step of the engine: the cache check, then the first matching rule. -/
def step (p : Profile) (c : Collaborators) (st : ScanState) (result : EventLogItem) :
    ScanState :=
  match st.findings.lookup result.pair with
  | some v => if v then st.EventIdentified result else st
  | none =>
      { detections := st.detections + (firstMatch p c result.pair).severity
        findings := (result.pair, (firstMatch p c result.pair).verdict) :: st.findings
        reaction := st.reaction ++ (firstMatch p c result.pair).notifications c result
        calls := st.calls ++ helperCalls p c result.pair }

/-- The loop body of the scan of a profile, as the code has it. -/
def HuntT1050.body : Profile → Collaborators → ScanState → EventLogItem → ScanState
  | .Normal => HuntT1050.ScanNormal.body
  | .Intensive => HuntT1050.ScanIntensive.body

/-- The state of the scan of a profile after its loop. -/
def HuntT1050.loop : Profile → Collaborators → List EventLogItem → ScanState
  | .Normal => HuntT1050.ScanNormal.loop
  | .Intensive => HuntT1050.ScanIntensive.loop

/-- The value the scan of a profile returns. -/
def HuntT1050.Scan : Profile → Collaborators → List EventLogItem → Int
  | .Normal => HuntT1050.ScanNormal
  | .Intensive => HuntT1050.ScanIntensive

/-- The events of a list whose key occurs neither in `seen` nor earlier in the list: the list
with every repeat of a key removed. -/
def keepFirst (seen : List Key) : List EventLogItem → List EventLogItem
  | [] => []
  | e :: es => if e.pair ∈ seen then keepFirst seen es else e :: keepFirst (e.pair :: seen) es

/-- The keys present in a findings map. -/
def Findings.keys (findings : Findings) : List Key :=
  findings.map Prod.fst

/-- The state in which the scan of a profile returns. -/
def HuntT1050.run : Profile → Collaborators → List EventLogItem → ScanState
  | .Normal => HuntT1050.ScanNormal.run
  | .Intensive => HuntT1050.ScanIntensive.run

/-- Whether a notification is an "event identified". -/
def Notification.isEvent : Notification → Bool
  | .EventIdentified _ => true
  | _ => false

/-- Whether a notification is a "file identified". -/
def Notification.isFile : Notification → Bool
  | .FileIdentified _ => true
  | _ => false

/-- Whether a helper call is a content scan. -/
def Call.isScan : Call → Bool
  | .ScanFile _ => true
  | _ => false

/-- The number of "event identified" notifications a reaction received. -/
def eventCount (reaction : List Notification) : Nat :=
  reaction.countP Notification.isEvent

/-- The number of "file identified" notifications a reaction received. -/
def fileCount (reaction : List Notification) : Nat :=
  reaction.countP Notification.isFile

/-- The number of content scans in a log of helper calls. -/
def scanCount (calls : List Call) : Nat :=
  calls.countP Call.isScan

/-- Every verdict stored in the map is the one the rule chain gives its key. -/
def Consistent (p : Profile) (c : Collaborators) (findings : Findings) : Prop :=
  ∀ k v, findings.lookup k = some v → v = (firstMatch p c k).verdict

/-- Whether a key reaches rule 6 (it matches none of the lolbin, unsigned-binary, PSExec and
Mimikatz rules) and satisfies the anomaly condition of `ScanIntensive`. -/
def anomalousKey (c : Collaborators) (k : Key) : Bool :=
  !c.IsLolbinMalicious k.2
    && !(c.GetFileExists (c.GetImagePathFromCommand k.2)
          && !c.GetFileSigned (c.GetImagePathFromCommand k.2))
    && !wfind k.1 "PSEXESVC"
    && !(wfind k.1 "mimikatz" || wfind k.1 "mimidrv"
          || wfind (c.GetImagePathFromCommand k.2) "mimidrv.sys")
    && (!c.GetFileExists (c.GetImagePathFromCommand k.2)
          || (decide (c.GetShannonEntropy k.1 < 3.00) || decide (c.GetShannonEntropy k.1 > 5.00)))

/-! ## Concrete inputs -/

/-- A machine on which the scans can be evaluated: the only malicious lolbin command is
`cmd.exe /c whoami`, a command is its own image path, two files exist, one of them signed,
and every service name has the entropy `entropy`. -/
def demo (entropy : ℚ) : Collaborators :=
  { IsLolbinMalicious := fun cmd => cmd == "cmd.exe /c whoami"
    GetImagePathFromCommand := fun cmd => cmd
    GetFileExists := fun path => path == "C:/Temp/unsigned.exe" || path == "C:/Temp/signed.exe"
    GetFileSigned := fun path => path == "C:/Temp/signed.exe"
    ScanFile := fun _ => false
    GetShannonEntropy := fun _ => entropy }

/-- An event whose command is the malicious lolbin of `demo`. -/
def evWhoami : EventLogItem :=
  { ServiceName := "PSEXESVC", ImagePath := "cmd.exe /c whoami",
    ServiceType := "user mode service", StartType := "demand start" }

/-- The same service as `evWhoami`, logged again with another start type. -/
def evWhoamiAgain : EventLogItem :=
  { evWhoami with StartType := "auto start" }

/-- An event whose image exists and is not signed. -/
def evUpdater : EventLogItem :=
  { ServiceName := "Updater", ImagePath := "C:/Temp/unsigned.exe",
    ServiceType := "user mode service", StartType := "auto start" }

/-- An event whose image exists and is signed, with no marker in its name. -/
def evSigned : EventLogItem :=
  { ServiceName := "Spooler", ImagePath := "C:/Temp/signed.exe",
    ServiceType := "user mode service", StartType := "auto start" }

/-- An event whose image does not exist, with no marker in its name. -/
def evMissing : EventLogItem :=
  { ServiceName := "aXq9Zr3T", ImagePath := "C:/Temp/gone.exe",
    ServiceType := "user mode service", StartType := "demand start" }

/-- An event whose name and image path carry the Mimikatz markers in upper case only; the
image does not exist. -/
def evUpperCase : EventLogItem :=
  { ServiceName := "MIMIKATZsvc", ImagePath := "C:/Temp/MIMIDRV.SYS",
    ServiceType := "kernel mode driver", StartType := "demand start" }

/-- An event that loads the Mimikatz driver; the image does not exist. -/
def evMimidrv : EventLogItem :=
  { ServiceName := "mimidrv", ImagePath := "C:/Temp/mimidrv.sys",
    ServiceType := "kernel mode driver", StartType := "demand start" }

/-- An event whose name carries the Mimikatz marker in upper case only; the image exists and
is signed. -/
def evUpperSigned : EventLogItem :=
  { ServiceName := "MIMIKATZsvc", ImagePath := "C:/Temp/signed.exe",
    ServiceType := "user mode service", StartType := "auto start" }

/-! ## The code is the rule chain -/

@[simp] theorem EventLogItem.pair_fst (result : EventLogItem) :
    result.pair.1 = result.ServiceName := rfl

@[simp] theorem EventLogItem.pair_snd (result : EventLogItem) :
    result.pair.2 = result.ImagePath := rfl

/-- The literal `3.00` of the code is the rational 3. -/
theorem lit_three : (3.00 : ℚ) = 3 := by norm_num

/-- The literal `5.00` of the code is the rational 5. -/
theorem lit_five : (5.00 : ℚ) = 5 := by norm_num

theorem Findings.count_of_lookup_some {findings : Findings} {pair : Key} {v : Bool}
    (h : findings.lookup pair = some v) : findings.count pair ≠ 0 := by
  simp [Findings.count, h]

theorem Findings.count_of_lookup_none {findings : Findings} {pair : Key}
    (h : findings.lookup pair = none) : findings.count pair = 0 := by
  simp [Findings.count, h]

theorem Findings.count_eq_zero_iff (findings : Findings) (pair : Key) :
    findings.count pair = 0 ↔ findings.lookup pair = none := by
  cases h : findings.lookup pair <;> simp [Findings.count, h]

theorem Findings.emplace_of_lookup_none {findings : Findings} {pair : Key}
    (h : findings.lookup pair = none) (v : Bool) :
    findings.emplace pair v = (pair, v) :: findings := by
  simp [Findings.emplace, h]

theorem ScanNormal_body_eq_step (c : Collaborators) (st : ScanState) (result : EventLogItem) :
    HuntT1050.ScanNormal.body c st result = step .Normal c st result := by
  have hp : (result.ServiceName, result.ImagePath) = result.pair := rfl
  unfold HuntT1050.ScanNormal.body step
  simp only [hp]
  cases h : st.findings.lookup result.pair with
  | some v =>
    have hc := Findings.count_of_lookup_some h
    cases v <;> simp [hc, Findings.at_, h]
  | none =>
    have hc := Findings.count_of_lookup_none h
    have he := Findings.emplace_of_lookup_none h
    simp only [hc, ne_eq, not_true_eq_false, if_false]
    by_cases hL : c.IsLolbinMalicious result.ImagePath = true
    · simp [hL, firstMatch, helperCalls, Rule.notifications, Rule.severity, Rule.verdict,
        Rule.fileIdentified, ScanState.call, ScanState.EventIdentified, ScanState.emplace,
        ScanState.addDetections, he]
    · by_cases hX : c.GetFileExists (c.GetImagePathFromCommand result.ImagePath) = true <;>
      by_cases hS : c.GetFileSigned (c.GetImagePathFromCommand result.ImagePath) = true <;>
      by_cases hP : wfind result.ServiceName "PSEXESVC" = true <;>
      by_cases hM : (wfind result.ServiceName "mimikatz" || wfind result.ServiceName "mimidrv"
          || wfind (c.GetImagePathFromCommand result.ImagePath) "mimidrv.sys") = true <;>
      simp [hL, hX, hS, hP, hM, firstMatch, helperCalls, Rule.notifications, Rule.severity,
        Rule.verdict, Rule.fileIdentified, ScanState.call, ScanState.EventIdentified,
        ScanState.FileIdentified, ScanState.emplace, ScanState.addDetections, he,
        anomalyTrigger, anomalyCalls]

theorem ScanIntensive_body_eq_step (c : Collaborators) (st : ScanState) (result : EventLogItem) :
    HuntT1050.ScanIntensive.body c st result = step .Intensive c st result := by
  have hp : (result.ServiceName, result.ImagePath) = result.pair := rfl
  unfold HuntT1050.ScanIntensive.body step
  simp only [hp, lit_three, lit_five]
  cases h : st.findings.lookup result.pair with
  | some v =>
    have hc := Findings.count_of_lookup_some h
    cases v <;> simp [hc, Findings.at_, h]
  | none =>
    have hc := Findings.count_of_lookup_none h
    have he := Findings.emplace_of_lookup_none h
    simp only [hc, ne_eq, not_true_eq_false, if_false]
    by_cases hL : c.IsLolbinMalicious result.ImagePath = true
    · simp [hL, firstMatch, helperCalls, Rule.notifications, Rule.severity, Rule.verdict,
        Rule.fileIdentified, ScanState.call, ScanState.EventIdentified, ScanState.emplace,
        ScanState.addDetections, he]
    · by_cases hX : c.GetFileExists (c.GetImagePathFromCommand result.ImagePath) = true <;>
      by_cases hS : c.GetFileSigned (c.GetImagePathFromCommand result.ImagePath) = true <;>
      by_cases hP : wfind result.ServiceName "PSEXESVC" = true <;>
      by_cases hE3 : c.GetShannonEntropy result.ServiceName < 3 <;>
      by_cases hE5 : 5 < c.GetShannonEntropy result.ServiceName <;>
      by_cases hM : (wfind result.ServiceName "mimikatz" || wfind result.ServiceName "mimidrv"
          || wfind (c.GetImagePathFromCommand result.ImagePath) "mimidrv.sys") = true <;>
      simp [hL, hX, hS, hP, hM, hE3, hE5, firstMatch, helperCalls, Rule.notifications, Rule.severity,
        Rule.verdict, Rule.fileIdentified, ScanState.call, ScanState.EventIdentified,
        ScanState.FileIdentified, ScanState.emplace, ScanState.addDetections, he,
        anomalyTrigger, anomalyCalls]

/-- The loop body of either scan is one step of the rule chain. -/
theorem body_eq_step (p : Profile) (c : Collaborators) :
    HuntT1050.body p c = step p c := by
  funext st result
  cases p
  · exact ScanNormal_body_eq_step c st result
  · exact ScanIntensive_body_eq_step c st result

/-- The loop of either scan folds the step over the events. -/
theorem loop_eq_foldl (p : Profile) (c : Collaborators) (queryResults : List EventLogItem) :
    HuntT1050.loop p c queryResults = queryResults.foldl (step p c) HuntT1050.start := by
  cases p
  · show List.foldl (HuntT1050.body .Normal c) _ _ = _
    rw [body_eq_step]
  · show List.foldl (HuntT1050.body .Intensive c) _ _ = _
    rw [body_eq_step]

/-- The value either scan returns is the detection count after its loop. -/
theorem Scan_eq (p : Profile) (c : Collaborators) (queryResults : List EventLogItem) :
    HuntT1050.Scan p c queryResults = (HuntT1050.loop p c queryResults).detections := by
  cases p <;> rfl

/-! ## One step -/

theorem step_hit (p : Profile) (c : Collaborators) {st : ScanState} {result : EventLogItem}
    {v : Bool} (h : st.findings.lookup result.pair = some v) :
    step p c st result =
      { st with reaction := st.reaction
          ++ (if v then [Notification.EventIdentified result] else []) } := by
  unfold step
  rw [h]
  cases v <;> simp [ScanState.EventIdentified]

theorem step_miss (p : Profile) (c : Collaborators) {st : ScanState} {result : EventLogItem}
    (h : st.findings.lookup result.pair = none) :
    step p c st result =
      { detections := st.detections + (firstMatch p c result.pair).severity
        findings := (result.pair, (firstMatch p c result.pair).verdict) :: st.findings
        reaction := st.reaction ++ (firstMatch p c result.pair).notifications c result
        calls := st.calls ++ helperCalls p c result.pair } := by
  unfold step
  rw [h]

theorem Findings.lookup_eq_none_iff (findings : Findings) (k : Key) :
    findings.lookup k = none ↔ k ∉ findings.keys := by
  induction findings with
  | nil => simp [Findings.keys]
  | cons kv rest ih =>
    obtain ⟨k1, v1⟩ := kv
    by_cases hk : k = k1
    · subst hk
      simp [Findings.keys, List.lookup]
    · have hb : (k == k1) = false := by simpa using hk
      simp only [List.lookup, hb, Findings.keys, List.map_cons, List.mem_cons, hk, false_or]
      exact ih

theorem Findings.mem_keys_of_lookup {findings : Findings} {k : Key} {v : Bool}
    (h : findings.lookup k = some v) : k ∈ findings.keys := by
  by_contra hn
  rw [← Findings.lookup_eq_none_iff] at hn
  rw [hn] at h
  exact Option.noConfusion h

theorem Rule.severity_nonneg (r : Rule) : 0 ≤ r.severity := by
  cases r <;> decide

theorem Rule.severity_le_two (r : Rule) : r.severity ≤ 2 := by
  cases r <;> decide

theorem Rule.severity_mem (r : Rule) : r.severity = 0 ∨ r.severity = 1 ∨ r.severity = 2 := by
  cases r <;> decide

/-! ## The whole loop, in closed form -/

/-- Detections, findings and helper calls after the loop, from any starting state: only the
first occurrence of each key not yet cached contributes. -/
theorem foldl_step_core (p : Profile) (c : Collaborators) (evs : List EventLogItem) :
    ∀ st : ScanState,
      (evs.foldl (step p c) st).detections = st.detections
          + ((keepFirst st.findings.keys evs).map
              (fun e => (firstMatch p c e.pair).severity)).sum
      ∧ (evs.foldl (step p c) st).findings =
          ((keepFirst st.findings.keys evs).map
              (fun e => (e.pair, (firstMatch p c e.pair).verdict))).reverse ++ st.findings
      ∧ (evs.foldl (step p c) st).calls = st.calls
          ++ ((keepFirst st.findings.keys evs).map (fun e => helperCalls p c e.pair)).flatten := by
  induction evs with
  | nil => intro st; simp [keepFirst]
  | cons e es ih =>
    intro st
    rw [List.foldl_cons]
    cases h : st.findings.lookup e.pair with
    | some v =>
      have hmem : e.pair ∈ st.findings.keys := Findings.mem_keys_of_lookup h
      have hs := step_hit p c h
      obtain ⟨h1, h2, h3⟩ := ih (step p c st e)
      rw [hs] at h1 h2 h3 ⊢
      simp only [keepFirst, hmem, if_true]
      exact ⟨h1, h2, h3⟩
    | none =>
      have hmem : e.pair ∉ st.findings.keys := (Findings.lookup_eq_none_iff _ _).1 h
      have hs := step_miss p c h
      obtain ⟨h1, h2, h3⟩ := ih (step p c st e)
      rw [hs] at h1 h2 h3 ⊢
      simp only [keepFirst, hmem, if_false]
      simp only [Findings.keys, List.map_cons] at h1 h2 h3 ⊢
      refine ⟨?_, ?_, ?_⟩
      · rw [h1]; simp [add_assoc]
      · rw [h2]; simp
      · rw [h3]; simp

/-! ## Removing repeats -/

theorem keepFirst_congr {seen seen' : List Key} (h : ∀ k, k ∈ seen ↔ k ∈ seen')
    (evs : List EventLogItem) : keepFirst seen evs = keepFirst seen' evs := by
  induction evs generalizing seen seen' with
  | nil => rfl
  | cons e es ih =>
    by_cases hm : e.pair ∈ seen
    · have hm' : e.pair ∈ seen' := (h _).1 hm
      simp only [keepFirst, hm, hm', if_true]
      exact ih h
    · have hm' : e.pair ∉ seen' := fun hx => hm ((h _).2 hx)
      simp only [keepFirst, hm, hm', if_false]
      congr 1
      apply ih
      intro k
      simp [h k]

theorem mem_keepFirst_pair (evs : List EventLogItem) :
    ∀ (seen : List Key) (k : Key),
      k ∈ (keepFirst seen evs).map EventLogItem.pair ↔
        k ∈ evs.map EventLogItem.pair ∧ k ∉ seen := by
  induction evs with
  | nil => intro seen k; simp [keepFirst]
  | cons e es ih =>
    intro seen k
    by_cases hm : e.pair ∈ seen
    · simp only [keepFirst, hm, if_true, ih, List.map_cons, List.mem_cons]
      constructor
      · rintro ⟨h1, h2⟩; exact ⟨Or.inr h1, h2⟩
      · rintro ⟨h1 | h1, h2⟩
        · subst h1; exact absurd hm h2
        · exact ⟨h1, h2⟩
    · simp only [keepFirst, hm, if_false, List.map_cons, List.mem_cons, ih, not_or]
      constructor
      · rintro (h1 | ⟨h1, h2, h3⟩)
        · subst h1; exact ⟨Or.inl rfl, hm⟩
        · exact ⟨Or.inr h1, h3⟩
      · rintro ⟨h1 | h1, h2⟩
        · exact Or.inl h1
        · by_cases hk : k = e.pair
          · exact Or.inl hk
          · exact Or.inr ⟨h1, hk, h2⟩

theorem nodup_keepFirst_pair (evs : List EventLogItem) :
    ∀ seen : List Key, ((keepFirst seen evs).map EventLogItem.pair).Nodup := by
  induction evs with
  | nil => intro seen; simp [keepFirst]
  | cons e es ih =>
    intro seen
    by_cases hm : e.pair ∈ seen
    · simp only [keepFirst, hm, if_true]; exact ih seen
    · simp only [keepFirst, hm, if_false, List.map_cons, List.nodup_cons]
      refine ⟨?_, ih _⟩
      rw [mem_keepFirst_pair]
      simp

/-- The keys kept from two lists with the same events, in any order, are the same up to
order. -/
theorem keepFirst_pair_perm {evs evs' : List EventLogItem} (h : evs.Perm evs')
    (seen : List Key) :
    ((keepFirst seen evs).map EventLogItem.pair).Perm
      ((keepFirst seen evs').map EventLogItem.pair) := by
  rw [List.perm_ext_iff_of_nodup (nodup_keepFirst_pair _ _) (nodup_keepFirst_pair _ _)]
  intro k
  rw [mem_keepFirst_pair, mem_keepFirst_pair]
  have := (h.map EventLogItem.pair).mem_iff (a := k)
  rw [this]

/-- The kept keys and the distinct keys of the list are the same up to order. -/
theorem keepFirst_pair_perm_dedup (evs : List EventLogItem) :
    ((keepFirst [] evs).map EventLogItem.pair).Perm (evs.map EventLogItem.pair).dedup := by
  rw [List.perm_ext_iff_of_nodup (nodup_keepFirst_pair _ _) (List.nodup_dedup _)]
  intro k
  rw [mem_keepFirst_pair, List.mem_dedup]
  simp

theorem keepFirst_length_le (evs : List EventLogItem) :
    ∀ seen : List Key, (keepFirst seen evs).length ≤ evs.length := by
  induction evs with
  | nil => intro seen; simp [keepFirst]
  | cons e es ih =>
    intro seen
    by_cases hm : e.pair ∈ seen
    · simp only [keepFirst, hm, if_true, List.length_cons]
      exact Nat.le_succ_of_le (ih seen)
    · simp only [keepFirst, hm, if_false, List.length_cons]
      exact Nat.succ_le_succ (ih _)

/-- Removing repeats from a list without repeats changes nothing. -/
theorem keepFirst_keepFirst (evs : List EventLogItem) :
    ∀ seen : List Key, keepFirst seen (keepFirst seen evs) = keepFirst seen evs := by
  induction evs with
  | nil => intro seen; rfl
  | cons e es ih =>
    intro seen
    by_cases hm : e.pair ∈ seen
    · simp only [keepFirst, hm, if_true]; exact ih seen
    · simp only [keepFirst, hm, if_false]
      rw [ih]

/-! ## What the map holds -/

theorem step_lookup_of_some (p : Profile) (c : Collaborators) {st : ScanState} {k : Key}
    {v : Bool} (h : st.findings.lookup k = some v) (e : EventLogItem) :
    (step p c st e).findings.lookup k = some v := by
  cases he : st.findings.lookup e.pair with
  | some w => rw [step_hit p c he]; exact h
  | none =>
    rw [step_miss p c he]
    have hne : k ≠ e.pair := by
      intro hk; rw [hk, he] at h; exact Option.noConfusion h
    have hb : (k == e.pair) = false := by simpa using hne
    simp only [List.lookup, hb]
    exact h

theorem foldl_step_lookup_of_some (p : Profile) (c : Collaborators) {k : Key} {v : Bool}
    (evs : List EventLogItem) :
    ∀ st : ScanState, st.findings.lookup k = some v →
      (evs.foldl (step p c) st).findings.lookup k = some v := by
  induction evs with
  | nil => intro st h; exact h
  | cons e es ih =>
    intro st h
    rw [List.foldl_cons]
    exact ih _ (step_lookup_of_some p c h e)

theorem step_lookup_self (p : Profile) (c : Collaborators) (st : ScanState)
    (e : EventLogItem) : ∃ v, (step p c st e).findings.lookup e.pair = some v := by
  cases he : st.findings.lookup e.pair with
  | some w => exact ⟨w, by rw [step_hit p c he]; exact he⟩
  | none =>
    refine ⟨(firstMatch p c e.pair).verdict, ?_⟩
    rw [step_miss p c he]
    simp [List.lookup]

theorem step_consistent (p : Profile) (c : Collaborators) {st : ScanState}
    (h : Consistent p c st.findings) (e : EventLogItem) :
    Consistent p c (step p c st e).findings := by
  cases he : st.findings.lookup e.pair with
  | some w => rw [step_hit p c he]; exact h
  | none =>
    rw [step_miss p c he]
    intro k v hk
    by_cases hke : k = e.pair
    · subst hke
      simp [List.lookup] at hk
      exact hk.symm
    · have hb : (k == e.pair) = false := by simpa using hke
      simp only [List.lookup, hb] at hk
      exact h k v hk

theorem foldl_step_consistent (p : Profile) (c : Collaborators) (evs : List EventLogItem) :
    ∀ st : ScanState, Consistent p c st.findings →
      Consistent p c (evs.foldl (step p c) st).findings := by
  induction evs with
  | nil => intro st h; exact h
  | cons e es ih =>
    intro st h
    rw [List.foldl_cons]
    exact ih _ (step_consistent p c h e)

theorem start_consistent (p : Profile) (c : Collaborators) :
    Consistent p c HuntT1050.start.findings := by
  intro k v h
  simp [HuntT1050.start] at h

/-- The map after the loop: exactly the keys of the events, each with the verdict of the
rule chain. -/
theorem loop_lookup (p : Profile) (c : Collaborators) (evs : List EventLogItem) (k : Key) :
    (HuntT1050.loop p c evs).findings.lookup k =
      if k ∈ evs.map EventLogItem.pair then some (firstMatch p c k).verdict else none := by
  rw [loop_eq_foldl]
  have hcons := foldl_step_consistent p c evs _ (start_consistent p c)
  have hkeys : (evs.foldl (step p c) HuntT1050.start).findings.keys
      = ((keepFirst [] evs).map EventLogItem.pair).reverse := by
    rw [(foldl_step_core p c evs HuntT1050.start).2.1]
    simp [Findings.keys, HuntT1050.start, List.map_reverse]
  by_cases hk : k ∈ evs.map EventLogItem.pair
  · rw [if_pos hk]
    cases hl : (evs.foldl (step p c) HuntT1050.start).findings.lookup k with
    | some v => rw [hcons k v hl]
    | none =>
      rw [Findings.lookup_eq_none_iff, hkeys, List.mem_reverse, mem_keepFirst_pair] at hl
      exact absurd ⟨hk, List.not_mem_nil _⟩ hl
  · rw [if_neg hk, Findings.lookup_eq_none_iff, hkeys, List.mem_reverse, mem_keepFirst_pair]
    exact fun h => hk h.1

/-! ## Counting notifications -/

theorem Rule.eventCount_notifications (r : Rule) (c : Collaborators) (e : EventLogItem) :
    eventCount (r.notifications c e) = if r.verdict then 1 else 0 := by
  cases r <;> simp [Rule.notifications, Rule.verdict, Rule.fileIdentified, eventCount,
    Notification.isEvent]

theorem Rule.fileCount_notifications (r : Rule) (c : Collaborators) (e : EventLogItem) :
    fileCount (r.notifications c e) = if r.fileIdentified then 1 else 0 := by
  cases r <;> simp [Rule.notifications, Rule.verdict, Rule.fileIdentified, fileCount,
    Notification.isFile]

/-- An "event identified" is emitted for every event whose key has a positive verdict. -/
theorem foldl_step_eventCount (p : Profile) (c : Collaborators) (evs : List EventLogItem) :
    ∀ st : ScanState, Consistent p c st.findings →
      eventCount (evs.foldl (step p c) st).reaction = eventCount st.reaction
        + evs.countP (fun e => (firstMatch p c e.pair).verdict) := by
  induction evs with
  | nil => intro st _; simp
  | cons e es ih =>
    intro st hc
    rw [List.foldl_cons, ih _ (step_consistent p c hc e), List.countP_cons]
    cases he : st.findings.lookup e.pair with
    | some w =>
      rw [step_hit p c he, ← hc _ _ he]
      cases w <;> simp [eventCount, Notification.isEvent, List.countP_append]
      omega
    | none =>
      rw [step_miss p c he]
      simp only [eventCount, List.countP_append]
      have := Rule.eventCount_notifications (firstMatch p c e.pair) c e
      simp only [eventCount] at this
      rw [this]
      cases (firstMatch p c e.pair).verdict <;> simp
      omega

/-- A "file identified" is emitted once for every kept key whose rule emits one. -/
theorem foldl_step_fileCount (p : Profile) (c : Collaborators) (evs : List EventLogItem) :
    ∀ st : ScanState,
      fileCount (evs.foldl (step p c) st).reaction = fileCount st.reaction
        + (keepFirst st.findings.keys evs).countP
            (fun e => (firstMatch p c e.pair).fileIdentified) := by
  induction evs with
  | nil => intro st; simp [keepFirst]
  | cons e es ih =>
    intro st
    rw [List.foldl_cons, ih]
    cases he : st.findings.lookup e.pair with
    | some w =>
      have hmem : e.pair ∈ st.findings.keys := Findings.mem_keys_of_lookup he
      rw [step_hit p c he]
      simp only [keepFirst, hmem, if_true]
      cases w <;> simp [fileCount, Notification.isFile, List.countP_append]
    | none =>
      have hmem : e.pair ∉ st.findings.keys := (Findings.lookup_eq_none_iff _ _).1 he
      rw [step_miss p c he]
      simp only [keepFirst, hmem, if_false, List.countP_cons]
      simp only [Findings.keys, List.map_cons, fileCount, List.countP_append]
      have := Rule.fileCount_notifications (firstMatch p c e.pair) c e
      simp only [fileCount] at this
      rw [this]
      cases (firstMatch p c e.pair).fileIdentified <;> simp
      omega


/-! ## A scan of one event -/

theorem run_eq (p : Profile) (c : Collaborators) (queryResults : List EventLogItem) :
    HuntT1050.run p c queryResults = HuntT1050.finish (HuntT1050.loop p c queryResults) := by
  cases p <;> rfl

theorem loop_singleton (p : Profile) (c : Collaborators) (result : EventLogItem) :
    HuntT1050.loop p c [result] = HuntT1050.body p c HuntT1050.start result := by
  rw [loop_eq_foldl, body_eq_step]
  rfl

theorem start_fresh (pair : Key) : HuntT1050.start.findings.count pair = 0 := rfl

/-- The loop body on a key that is not in the map, by the rule chain. -/
theorem body_fresh (p : Profile) (c : Collaborators) {st : ScanState} {result : EventLogItem}
    (hfresh : st.findings.count result.pair = 0) :
    HuntT1050.body p c st result =
      { detections := st.detections + (firstMatch p c result.pair).severity
        findings := (result.pair, (firstMatch p c result.pair).verdict) :: st.findings
        reaction := st.reaction ++ (firstMatch p c result.pair).notifications c result
        calls := st.calls ++ helperCalls p c result.pair } := by
  rw [body_eq_step]
  exact step_miss p c ((Findings.count_eq_zero_iff _ _).1 hfresh)

/-! ## Substring search -/

theorem findFrom_iff (needle s : List Char) : findFrom needle s = true ↔ needle <:+: s := by
  induction s with
  | nil => simp [findFrom]
  | cons a s ih =>
    rw [findFrom, Bool.or_eq_true, ih, List.infix_cons_iff, List.isPrefixOf_iff_prefix]

/-- The search succeeds exactly when the characters of the needle occur, as they are and in a
row, in the string. -/
theorem wfind_iff (s needle : String) : wfind s needle = true ↔ needle.toList <:+: s.toList :=
  findFrom_iff _ _

/-! ## The whole scan from the empty map -/

theorem loop_detections (p : Profile) (c : Collaborators) (evs : List EventLogItem) :
    (HuntT1050.loop p c evs).detections =
      (((keepFirst [] evs).map EventLogItem.pair).map
        (fun k => (firstMatch p c k).severity)).sum := by
  rw [loop_eq_foldl, (foldl_step_core p c evs HuntT1050.start).1]
  simp [HuntT1050.start, Findings.keys, Function.comp_def]

theorem loop_findings (p : Profile) (c : Collaborators) (evs : List EventLogItem) :
    (HuntT1050.loop p c evs).findings =
      (((keepFirst [] evs).map EventLogItem.pair).map
        (fun k => (k, (firstMatch p c k).verdict))).reverse := by
  rw [loop_eq_foldl, (foldl_step_core p c evs HuntT1050.start).2.1]
  simp [HuntT1050.start, Findings.keys, Function.comp_def]

theorem loop_calls (p : Profile) (c : Collaborators) (evs : List EventLogItem) :
    (HuntT1050.loop p c evs).calls =
      ((keepFirst [] evs).map (fun e => helperCalls p c e.pair)).flatten := by
  rw [loop_eq_foldl, (foldl_step_core p c evs HuntT1050.start).2.2]
  simp [HuntT1050.start, Findings.keys]

theorem loop_eventCount (p : Profile) (c : Collaborators) (evs : List EventLogItem) :
    eventCount (HuntT1050.loop p c evs).reaction =
      (evs.map EventLogItem.pair).countP (fun k => (firstMatch p c k).verdict) := by
  rw [loop_eq_foldl, foldl_step_eventCount p c evs _ (start_consistent p c)]
  simp [HuntT1050.start, eventCount, Notification.isEvent, List.countP_map,
    Function.comp_def]

theorem loop_fileCount (p : Profile) (c : Collaborators) (evs : List EventLogItem) :
    fileCount (HuntT1050.loop p c evs).reaction =
      ((keepFirst [] evs).map EventLogItem.pair).countP
        (fun k => (firstMatch p c k).fileIdentified) := by
  rw [loop_eq_foldl, foldl_step_fileCount p c evs]
  simp [HuntT1050.start, fileCount, Notification.isFile, List.countP_map, Findings.keys,
    Function.comp_def]

theorem scanCount_anomalyCalls (p : Profile) (c : Collaborators) (imageName imagePath : String) :
    List.countP Call.isScan (anomalyCalls p c imageName imagePath) = 0 := by
  cases p
  · simp [anomalyCalls]
  · by_cases hX : c.GetFileExists imagePath = true <;>
    by_cases hE : c.GetShannonEntropy imageName < 3 <;>
    simp [anomalyCalls, hX, hE, Call.isScan]

theorem scanCount_helperCalls (p : Profile) (c : Collaborators) (k : Key) :
    scanCount (helperCalls p c k) = if firstMatch p c k = Rule.Unsigned then 1 else 0 := by
  unfold helperCalls
  by_cases hX : c.GetFileExists (c.GetImagePathFromCommand k.2) = true <;>
  cases h : firstMatch p c k <;>
  simp [scanCount, hX, List.countP_append, List.countP_cons, Call.isScan,
    scanCount_anomalyCalls]

theorem loop_scanCount (p : Profile) (c : Collaborators) (evs : List EventLogItem) :
    scanCount (HuntT1050.loop p c evs).calls =
      ((keepFirst [] evs).map EventLogItem.pair).countP
        (fun k => decide (firstMatch p c k = Rule.Unsigned)) := by
  rw [loop_calls]
  generalize keepFirst [] evs = l
  induction l with
  | nil => simp [scanCount]
  | cons e es ih =>
    simp only [scanCount, List.map_cons, List.flatten_cons, List.countP_append,
      List.countP_cons] at ih ⊢
    rw [ih]
    have := scanCount_helperCalls p c e.pair
    simp only [scanCount] at this
    rw [this]
    by_cases h : firstMatch p c e.pair = Rule.Unsigned <;> simp [h]
    omega

theorem eventCount_finish (st : ScanState) :
    eventCount (HuntT1050.finish st).reaction = eventCount st.reaction := by
  simp [HuntT1050.finish, eventCount, Notification.isEvent, List.countP_append]

theorem fileCount_finish (st : ScanState) :
    fileCount (HuntT1050.finish st).reaction = fileCount st.reaction := by
  simp [HuntT1050.finish, fileCount, Notification.isFile, List.countP_append]

/-! ## Notifications of one step -/

theorem Rule.fileIdentified_eq (r : Rule) : r.fileIdentified = decide (r.severity = 2) := by
  cases r <;> decide

theorem run_findings (p : Profile) (c : Collaborators) (evs : List EventLogItem) :
    (HuntT1050.run p c evs).findings = (HuntT1050.loop p c evs).findings := by
  rw [run_eq]; rfl

theorem loop_snoc (p : Profile) (c : Collaborators) (pre : List EventLogItem)
    (e : EventLogItem) :
    HuntT1050.loop p c (pre ++ [e]) = step p c (HuntT1050.loop p c pre) e := by
  rw [loop_eq_foldl, loop_eq_foldl, List.foldl_append]
  rfl

/-- What one step adds to the reaction, read off the state it leaves: an "event identified"
exactly when the verdict now stored for the key is true, a "file identified" exactly when the
step added 2. -/
theorem step_counts (p : Profile) (c : Collaborators) (st : ScanState) (e : EventLogItem) :
    eventCount (step p c st e).reaction = eventCount st.reaction
        + (if (step p c st e).findings.lookup e.pair = some true then 1 else 0)
    ∧ fileCount (step p c st e).reaction = fileCount st.reaction
        + (if (step p c st e).detections = st.detections + 2 then 1 else 0) := by
  cases h : st.findings.lookup e.pair with
  | some v =>
    rw [step_hit p c h]
    cases v <;> simp [eventCount, fileCount, Notification.isEvent, Notification.isFile,
      List.countP_append, h]
  | none =>
    rw [step_miss p c h]
    cases firstMatch p c e.pair <;>
      simp [eventCount, fileCount, Notification.isEvent, Notification.isFile,
        List.countP_append, List.lookup, Rule.notifications, Rule.verdict,
        Rule.fileIdentified, Rule.severity]

/-! ## Normal against Intensive -/

/-- The rule chains of the two profiles: Intensive follows Normal, except that a key Normal
leaves undetected is an anomaly in Intensive when the trigger of rule 6 holds. -/
theorem firstMatch_intensive (c : Collaborators) (k : Key) :
    firstMatch .Intensive c k =
      if firstMatch .Normal c k = Rule.NoDetection then
        (if anomalyTrigger .Intensive c k.1 (c.GetImagePathFromCommand k.2) then Rule.Anomaly
          else Rule.NoDetection)
      else firstMatch .Normal c k := by
  simp only [firstMatch, anomalyTrigger]
  split_ifs <;> simp_all

theorem firstMatch_normal_ne_anomaly (c : Collaborators) (k : Key) :
    firstMatch .Normal c k ≠ Rule.Anomaly := by
  simp only [firstMatch, anomalyTrigger]
  split_ifs <;> simp_all

theorem firstMatch_normal_noDetection_iff (c : Collaborators) (k : Key) :
    firstMatch .Normal c k = Rule.NoDetection ↔
      c.IsLolbinMalicious k.2 = false
      ∧ (c.GetFileExists (c.GetImagePathFromCommand k.2)
          && !c.GetFileSigned (c.GetImagePathFromCommand k.2)) = false
      ∧ wfind k.1 "PSEXESVC" = false
      ∧ wfind k.1 "mimikatz" = false ∧ wfind k.1 "mimidrv" = false
      ∧ wfind (c.GetImagePathFromCommand k.2) "mimidrv.sys" = false := by
  cases hL : c.IsLolbinMalicious k.2 <;>
  cases hX : c.GetFileExists (c.GetImagePathFromCommand k.2) <;>
  cases hS : c.GetFileSigned (c.GetImagePathFromCommand k.2) <;>
  cases hP : wfind k.1 "PSEXESVC" <;>
  cases h1 : wfind k.1 "mimikatz" <;>
  cases h2 : wfind k.1 "mimidrv" <;>
  cases h3 : wfind (c.GetImagePathFromCommand k.2) "mimidrv.sys" <;>
  simp [firstMatch, anomalyTrigger, hL, hX, hS, hP, h1, h2, h3]

theorem firstMatch_intensive_of_match {c : Collaborators} {k : Key}
    (h : firstMatch .Normal c k ≠ Rule.NoDetection) :
    firstMatch .Intensive c k = firstMatch .Normal c k := by
  rw [firstMatch_intensive, if_neg h]

theorem helperCalls_intensive_of_match {c : Collaborators} {k : Key}
    (h : firstMatch .Normal c k ≠ Rule.NoDetection) :
    helperCalls .Intensive c k = helperCalls .Normal c k := by
  have h2 := firstMatch_normal_ne_anomaly c k
  unfold helperCalls
  rw [firstMatch_intensive_of_match h]
  cases hr : firstMatch .Normal c k <;> simp_all

theorem step_intensive_of_match {c : Collaborators} {e : EventLogItem}
    (h : firstMatch .Normal c e.pair ≠ Rule.NoDetection) (st : ScanState) :
    step .Intensive c st e = step .Normal c st e := by
  unfold step
  rw [firstMatch_intensive_of_match h, helperCalls_intensive_of_match h]

/-- The severity in Intensive is the severity in Normal, plus 2 for an anomaly. -/
theorem severity_intensive (c : Collaborators) (k : Key) :
    (firstMatch .Intensive c k).severity = (firstMatch .Normal c k).severity
      + (if firstMatch .Intensive c k = Rule.Anomaly then 2 else 0) := by
  have h2 := firstMatch_normal_ne_anomaly c k
  rw [firstMatch_intensive]
  by_cases h : firstMatch .Normal c k = Rule.NoDetection
  · rw [if_pos h, h]
    split_ifs <;> simp_all [Rule.severity]
  · rw [if_neg h, if_neg h2]
    simp

theorem verdict_intensive_of_normal (c : Collaborators) (k : Key)
    (h : (firstMatch .Normal c k).verdict = true) :
    (firstMatch .Intensive c k).verdict = true := by
  have hne : firstMatch .Normal c k ≠ Rule.NoDetection := by
    intro hn; rw [hn] at h; exact Bool.noConfusion h
  rw [firstMatch_intensive_of_match hne]
  exact h

theorem sum_severity_intensive (c : Collaborators) (l : List Key) :
    (l.map (fun k => (firstMatch .Intensive c k).severity)).sum =
      (l.map (fun k => (firstMatch .Normal c k).severity)).sum
        + 2 * (l.countP (fun k => decide (firstMatch .Intensive c k = Rule.Anomaly)) : Int) := by
  induction l with
  | nil => simp
  | cons k l ih =>
    rw [List.map_cons, List.sum_cons, List.map_cons, List.sum_cons, ih, severity_intensive,
      List.countP_cons]
    by_cases h : firstMatch .Intensive c k = Rule.Anomaly
    · simp only [h, if_true, decide_True]
      push_cast
      ring
    · simp only [h, if_false, decide_False]
      simp
      ring

theorem anomalousKey_eq (c : Collaborators) (k : Key) :
    anomalousKey c k = decide (firstMatch .Intensive c k = Rule.Anomaly) := by
  simp only [anomalousKey, lit_three, lit_five]
  cases hL : c.IsLolbinMalicious k.2 <;>
  cases hX : c.GetFileExists (c.GetImagePathFromCommand k.2) <;>
  cases hS : c.GetFileSigned (c.GetImagePathFromCommand k.2) <;>
  cases hP : wfind k.1 "PSEXESVC" <;>
  cases h1 : wfind k.1 "mimikatz" <;>
  cases h2 : wfind k.1 "mimidrv" <;>
  cases h3 : wfind (c.GetImagePathFromCommand k.2) "mimidrv.sys" <;>
  by_cases hE3 : c.GetShannonEntropy k.1 < 3 <;>
  by_cases hE5 : 5 < c.GetShannonEntropy k.1 <;>
  simp [firstMatch, anomalyTrigger, hL, hX, hS, hP, h1, h2, h3, hE3, hE5]

/-- The effect of one event at the end of a list, from the empty map. -/
theorem loop_snoc_effect (p : Profile) (c : Collaborators) (pre : List EventLogItem)
    (e : EventLogItem) :
    (HuntT1050.loop p c (pre ++ [e])).detections = (HuntT1050.loop p c pre).detections
        + (if e.pair ∈ pre.map EventLogItem.pair then 0 else (firstMatch p c e.pair).severity)
    ∧ (HuntT1050.loop p c (pre ++ [e])).reaction = (HuntT1050.loop p c pre).reaction
        ++ (if e.pair ∈ pre.map EventLogItem.pair then
              (if (firstMatch p c e.pair).verdict then [Notification.EventIdentified e] else [])
            else (firstMatch p c e.pair).notifications c e)
    ∧ (HuntT1050.loop p c (pre ++ [e])).findings.lookup e.pair
        = some (firstMatch p c e.pair).verdict := by
  have hl := loop_lookup p c pre e.pair
  refine ⟨?_, ?_, ?_⟩
  · rw [loop_snoc]
    by_cases hm : e.pair ∈ pre.map EventLogItem.pair
    · rw [if_pos hm] at hl ⊢
      rw [step_hit p c hl]; simp
    · rw [if_neg hm] at hl ⊢
      rw [step_miss p c hl]
  · rw [loop_snoc]
    by_cases hm : e.pair ∈ pre.map EventLogItem.pair
    · rw [if_pos hm] at hl ⊢
      rw [step_hit p c hl]
    · rw [if_neg hm] at hl ⊢
      rw [step_miss p c hl]
  · rw [loop_lookup, if_pos (by simp)]

theorem firstMatch_intensive_noDetection_iff (c : Collaborators) (k : Key) :
    firstMatch .Intensive c k = Rule.NoDetection ↔
      c.IsLolbinMalicious k.2 = false
      ∧ c.GetFileExists (c.GetImagePathFromCommand k.2) = true
      ∧ c.GetFileSigned (c.GetImagePathFromCommand k.2) = true
      ∧ wfind k.1 "PSEXESVC" = false
      ∧ wfind k.1 "mimikatz" = false ∧ wfind k.1 "mimidrv" = false
      ∧ wfind (c.GetImagePathFromCommand k.2) "mimidrv.sys" = false
      ∧ 3 ≤ c.GetShannonEntropy k.1 ∧ c.GetShannonEntropy k.1 ≤ 5 := by
  cases hL : c.IsLolbinMalicious k.2 <;>
  cases hX : c.GetFileExists (c.GetImagePathFromCommand k.2) <;>
  cases hS : c.GetFileSigned (c.GetImagePathFromCommand k.2) <;>
  cases hP : wfind k.1 "PSEXESVC" <;>
  cases h1 : wfind k.1 "mimikatz" <;>
  cases h2 : wfind k.1 "mimidrv" <;>
  cases h3 : wfind (c.GetImagePathFromCommand k.2) "mimidrv.sys" <;>
  by_cases hE3 : c.GetShannonEntropy k.1 < 3 <;>
  by_cases hE5 : 5 < c.GetShannonEntropy k.1 <;>
  simp [firstMatch, anomalyTrigger, hL, hX, hS, hP, h1, h2, h3, hE3, hE5, not_le.2,
    not_lt.1]

theorem Rule.verdict_eq_false_iff (r : Rule) : r.verdict = false ↔ r = Rule.NoDetection := by
  cases r <;> simp [Rule.verdict]

/-- Each rule is the first match exactly when its condition holds and no earlier one
does. -/
theorem firstMatch_chain (p : Profile) (c : Collaborators) (k : Key) :
    ((firstMatch p c k = Rule.Lolbin ↔
        c.IsLolbinMalicious k.2 = true)
      ∧ (firstMatch p c k = Rule.Unsigned ↔
        c.IsLolbinMalicious k.2 = false
        ∧ c.GetFileExists (c.GetImagePathFromCommand k.2) = true
        ∧ c.GetFileSigned (c.GetImagePathFromCommand k.2) = false)
      ∧ (firstMatch p c k = Rule.PSExec ↔
        c.IsLolbinMalicious k.2 = false
        ∧ (c.GetFileExists (c.GetImagePathFromCommand k.2)
            && !c.GetFileSigned (c.GetImagePathFromCommand k.2)) = false
        ∧ wfind k.1 "PSEXESVC" = true)
      ∧ (firstMatch p c k = Rule.Mimikatz ↔
        c.IsLolbinMalicious k.2 = false
        ∧ (c.GetFileExists (c.GetImagePathFromCommand k.2)
            && !c.GetFileSigned (c.GetImagePathFromCommand k.2)) = false
        ∧ wfind k.1 "PSEXESVC" = false
        ∧ (wfind k.1 "mimikatz" = true ∨ wfind k.1 "mimidrv" = true
          ∨ wfind (c.GetImagePathFromCommand k.2) "mimidrv.sys" = true))
      ∧ (firstMatch p c k = Rule.Anomaly ↔
        c.IsLolbinMalicious k.2 = false
        ∧ (c.GetFileExists (c.GetImagePathFromCommand k.2)
            && !c.GetFileSigned (c.GetImagePathFromCommand k.2)) = false
        ∧ wfind k.1 "PSEXESVC" = false
        ∧ wfind k.1 "mimikatz" = false
        ∧ wfind k.1 "mimidrv" = false
        ∧ wfind (c.GetImagePathFromCommand k.2) "mimidrv.sys" = false
        ∧ p = Profile.Intensive
        ∧ (c.GetFileExists (c.GetImagePathFromCommand k.2) = false
          ∨ c.GetShannonEntropy k.1 < 3.00
          ∨ c.GetShannonEntropy k.1 > 5.00))
      ∧ (firstMatch p c k = Rule.NoDetection ↔
        c.IsLolbinMalicious k.2 = false
        ∧ (c.GetFileExists (c.GetImagePathFromCommand k.2)
            && !c.GetFileSigned (c.GetImagePathFromCommand k.2)) = false
        ∧ wfind k.1 "PSEXESVC" = false
        ∧ wfind k.1 "mimikatz" = false
        ∧ wfind k.1 "mimidrv" = false
        ∧ wfind (c.GetImagePathFromCommand k.2) "mimidrv.sys" = false
        ∧ ¬ (p = Profile.Intensive
          ∧ (c.GetFileExists (c.GetImagePathFromCommand k.2) = false
            ∨ c.GetShannonEntropy k.1 < 3.00
            ∨ c.GetShannonEntropy k.1 > 5.00)))) := by
  simp only [lit_three, lit_five]
  by_cases hL : c.IsLolbinMalicious k.2 = true
  · simp [firstMatch, hL]
  · cases hX : c.GetFileExists (c.GetImagePathFromCommand k.2) <;>
    cases hS : c.GetFileSigned (c.GetImagePathFromCommand k.2) <;>
    cases hP : wfind k.1 "PSEXESVC" <;>
    cases h1 : wfind k.1 "mimikatz" <;>
    cases h2 : wfind k.1 "mimidrv" <;>
    cases h3 : wfind (c.GetImagePathFromCommand k.2) "mimidrv.sys" <;>
    first
    | (simp [firstMatch, anomalyTrigger, hL, hX, hS, hP, h1, h2, h3]; done)
    | (cases p <;>
        by_cases hE3 : c.GetShannonEntropy k.1 < 3 <;>
        by_cases hE5 : 5 < c.GetShannonEntropy k.1 <;>
        simp [firstMatch, anomalyTrigger, hL, hX, hS, hP, h1, h2, h3, hE3, hE5])

theorem anomalyCalls_intensive_ne_nil (c : Collaborators) (imageName imagePath : String) :
    anomalyCalls .Intensive c imageName imagePath ≠ [] := by
  simp only [anomalyCalls]
  split_ifs <;> simp

/-- On a key that is not in the map, the loop body leaves the state of the Mimikatz rule
(2 added, both notifications, the verdict true, and no helper call after the file lookup)
exactly when the Mimikatz rule is the first match. -/
theorem body_eq_mimikatz_iff (p : Profile) (c : Collaborators) {st : ScanState}
    {result : EventLogItem} (hfresh : st.findings.count result.pair = 0)
    (hlolbin : c.IsLolbinMalicious result.ImagePath = false) :
    HuntT1050.body p c st result =
        { detections := st.detections + 2
          findings := (result.pair, true) :: st.findings
          reaction := st.reaction ++ [Notification.EventIdentified result,
            Notification.FileIdentified (c.GetImagePathFromCommand result.ImagePath)]
          calls := st.calls ++ [Call.IsLolbinMalicious result.ImagePath,
            Call.GetImagePathFromCommand result.ImagePath,
            Call.File (c.GetImagePathFromCommand result.ImagePath),
            Call.GetFileExists (c.GetImagePathFromCommand result.ImagePath)]
            ++ (if c.GetFileExists (c.GetImagePathFromCommand result.ImagePath) then
                  [Call.GetFileSigned (c.GetImagePathFromCommand result.ImagePath)]
                else []) }
      ↔ firstMatch p c result.pair = Rule.Mimikatz := by
  rw [body_fresh p c hfresh]
  have hnl : firstMatch p c result.pair ≠ Rule.Lolbin := by
    intro h
    have := ((firstMatch_chain p c result.pair).1).1 h
    simp only [EventLogItem.pair_snd] at this
    rw [hlolbin] at this
    exact Bool.noConfusion this
  cases hr : firstMatch p c result.pair with
  | Lolbin => exact absurd hr hnl
  | Unsigned =>
    simp [helperCalls, hr, Rule.severity, Rule.verdict, Rule.notifications,
      Rule.fileIdentified]
  | PSExec =>
    simp [helperCalls, hr, Rule.severity, Rule.verdict, Rule.notifications,
      Rule.fileIdentified]
  | Mimikatz =>
    simp [helperCalls, hr, Rule.severity, Rule.verdict, Rule.notifications,
      Rule.fileIdentified]
  | Anomaly =>
    cases p with
    | Normal => exact absurd hr (firstMatch_normal_ne_anomaly c result.pair)
    | Intensive =>
      have hne := anomalyCalls_intensive_ne_nil c result.ServiceName
        (c.GetImagePathFromCommand result.ImagePath)
      simp [helperCalls, hr, Rule.severity, Rule.verdict, Rule.notifications,
        Rule.fileIdentified, hne]
  | NoDetection =>
    simp [helperCalls, hr, Rule.severity, Rule.verdict, Rule.notifications,
      Rule.fileIdentified]

/-! ## The claims -/

/-- C1 (cache hit): in either scan, once an event `first` has been processed, a later event
`e` with the same (ServiceName, ImagePath) leaves the detection count, the map and the helper
calls as they are, and adds to the reaction exactly one "event identified" when the verdict
`v` stored for that key is true and nothing when it is false; `v` is the value the map holds
for the key from the moment its first occurrence has been processed. -/
theorem C1_cache_hit_idempotence (p : Profile) (c : Collaborators)
    (before between : List EventLogItem) (first e : EventLogItem)
    (hkey : e.pair = first.pair) :
    ∃ v : Bool,
      (HuntT1050.loop p c (before ++ [first])).findings.at_ first.pair = some v
      ∧ HuntT1050.body p c (HuntT1050.loop p c (before ++ first :: between)) e =
          { HuntT1050.loop p c (before ++ first :: between) with
            reaction := (HuntT1050.loop p c (before ++ first :: between)).reaction
              ++ (if v then [Notification.EventIdentified e] else []) }
      ∧ HuntT1050.Scan p c (before ++ first :: between ++ [e])
          = HuntT1050.Scan p c (before ++ first :: between) := by
  have hsplit : before ++ first :: between = (before ++ [first]) ++ between := by simp
  obtain ⟨v, hv⟩ := step_lookup_self p c (before.foldl (step p c) HuntT1050.start) first
  have h1 : (HuntT1050.loop p c (before ++ [first])).findings.lookup first.pair = some v := by
    rw [loop_eq_foldl, List.foldl_append]
    exact hv
  have h2 : (HuntT1050.loop p c (before ++ first :: between)).findings.lookup e.pair
      = some v := by
    rw [hkey, hsplit, loop_eq_foldl, List.foldl_append]
    rw [loop_eq_foldl] at h1
    exact foldl_step_lookup_of_some p c between _ h1
  have h3 := step_hit p c h2
  refine ⟨v, h1, ?_, ?_⟩
  · rw [body_eq_step]
    exact h3
  · have h4 : before ++ first :: between ++ [e] = (before ++ first :: between) ++ [e] := by
      simp
    rw [Scan_eq, Scan_eq, h4, loop_eq_foldl, List.foldl_append, ← loop_eq_foldl]
    simp only [List.foldl_cons, List.foldl_nil]
    rw [h3]

/-- C1 at a concrete input: a lolbin service logged twice around a benign one. -/
theorem C1_cache_hit_idempotence_witness :
    evWhoamiAgain.pair = evWhoami.pair ∧
    ∃ v : Bool,
      (HuntT1050.loop .Normal (demo 4) ([] ++ [evWhoami])).findings.at_ evWhoami.pair = some v
      ∧ HuntT1050.body .Normal (demo 4)
          (HuntT1050.loop .Normal (demo 4) ([] ++ evWhoami :: [evSigned])) evWhoamiAgain =
          { HuntT1050.loop .Normal (demo 4) ([] ++ evWhoami :: [evSigned]) with
            reaction := (HuntT1050.loop .Normal (demo 4) ([] ++ evWhoami :: [evSigned])).reaction
              ++ (if v then [Notification.EventIdentified evWhoamiAgain] else []) }
      ∧ HuntT1050.Scan .Normal (demo 4) ([] ++ evWhoami :: [evSigned] ++ [evWhoamiAgain])
          = HuntT1050.Scan .Normal (demo 4) ([] ++ evWhoami :: [evSigned]) :=
  ⟨by decide, C1_cache_hit_idempotence .Normal (demo 4) [] [evSigned] evWhoami evWhoamiAgain
    (by decide)⟩

/-- C2 (lolbin rule first): in either scan, an event whose key is not in the map and whose
raw command is a malicious lolbin adds exactly 1, emits exactly one "event identified" and
no "file identified", stores the verdict true, and the only helper called is
`IsLolbinMalicious`: no path extraction, file lookup, signature check, content scan or
entropy. Nothing is assumed about the service name, the file or the entropy. A scan of that
single event returns 1. -/
theorem C2_lolbin_precedence (p : Profile) (c : Collaborators) (st : ScanState)
    (result : EventLogItem) (hfresh : st.findings.count result.pair = 0)
    (hlolbin : c.IsLolbinMalicious result.ImagePath = true) :
    HuntT1050.body p c st result =
        { detections := st.detections + 1
          findings := (result.pair, true) :: st.findings
          reaction := st.reaction ++ [Notification.EventIdentified result]
          calls := st.calls ++ [Call.IsLolbinMalicious result.ImagePath] }
    ∧ HuntT1050.Scan p c [result] = 1
    ∧ (HuntT1050.run p c [result]).reaction
        = [Notification.BeginHunt, Notification.EventIdentified result, Notification.EndHunt]
    ∧ (HuntT1050.run p c [result]).calls = [Call.IsLolbinMalicious result.ImagePath] := by
  have hrule : firstMatch p c result.pair = Rule.Lolbin := by
    simp [firstMatch, hlolbin]
  have hcalls : helperCalls p c result.pair = [Call.IsLolbinMalicious result.ImagePath] := by
    simp [helperCalls, hrule]
  have hbody : ∀ st' : ScanState, st'.findings.count result.pair = 0 →
      HuntT1050.body p c st' result =
        { detections := st'.detections + 1
          findings := (result.pair, true) :: st'.findings
          reaction := st'.reaction ++ [Notification.EventIdentified result]
          calls := st'.calls ++ [Call.IsLolbinMalicious result.ImagePath] } := by
    intro st' h
    rw [body_fresh p c h, hrule, hcalls]
    simp [Rule.severity, Rule.verdict, Rule.notifications, Rule.fileIdentified]
  refine ⟨hbody st hfresh, ?_, ?_, ?_⟩
  · rw [Scan_eq, loop_singleton, hbody _ (start_fresh _)]
    rfl
  · rw [run_eq, loop_singleton, hbody _ (start_fresh _)]
    rfl
  · rw [run_eq, loop_singleton, hbody _ (start_fresh _)]
    rfl

/-- C2 at the scenario of the specification: the single event with the command
`cmd.exe /c whoami`, recognised as a lolbin, in a service named PSEXESVC. -/
theorem C2_lolbin_precedence_witness :
    (evWhoami.ImagePath = "cmd.exe /c whoami" ∧ wfind evWhoami.ServiceName "PSEXESVC" = true)
    ∧ HuntT1050.body .Intensive (demo 6) HuntT1050.start evWhoami =
        { detections := HuntT1050.start.detections + 1
          findings := (evWhoami.pair, true) :: HuntT1050.start.findings
          reaction := HuntT1050.start.reaction ++ [Notification.EventIdentified evWhoami]
          calls := HuntT1050.start.calls ++ [Call.IsLolbinMalicious evWhoami.ImagePath] }
    ∧ HuntT1050.Scan .Intensive (demo 6) [evWhoami] = 1
    ∧ (HuntT1050.run .Intensive (demo 6) [evWhoami]).reaction
        = [Notification.BeginHunt, Notification.EventIdentified evWhoami, Notification.EndHunt]
    ∧ (HuntT1050.run .Intensive (demo 6) [evWhoami]).calls
        = [Call.IsLolbinMalicious evWhoami.ImagePath] :=
  ⟨by decide, C2_lolbin_precedence .Intensive (demo 6) HuntT1050.start evWhoami (by decide)
    (by decide)⟩

/-- C3 (unsigned binary): in either scan, an event whose key is not in the map, whose command
is not a malicious lolbin and whose extracted image exists and is not signed adds exactly 2,
emits "event identified" then "file identified", calls the content scan exactly once and
stores the verdict true. The service name plays no part, and neither does the result of the
content scan: replacing `ScanFile` by any other function gives the same state. A scan of that
single event returns 2. -/
theorem C3_unsigned_binary (p : Profile) (c : Collaborators) (st : ScanState)
    (result : EventLogItem) (hfresh : st.findings.count result.pair = 0)
    (hlolbin : c.IsLolbinMalicious result.ImagePath = false)
    (hexists : c.GetFileExists (c.GetImagePathFromCommand result.ImagePath) = true)
    (hunsigned : c.GetFileSigned (c.GetImagePathFromCommand result.ImagePath) = false) :
    HuntT1050.body p c st result =
        { detections := st.detections + 2
          findings := (result.pair, true) :: st.findings
          reaction := st.reaction ++ [Notification.EventIdentified result,
            Notification.FileIdentified (c.GetImagePathFromCommand result.ImagePath)]
          calls := st.calls ++ [Call.IsLolbinMalicious result.ImagePath,
            Call.GetImagePathFromCommand result.ImagePath,
            Call.File (c.GetImagePathFromCommand result.ImagePath),
            Call.GetFileExists (c.GetImagePathFromCommand result.ImagePath),
            Call.GetFileSigned (c.GetImagePathFromCommand result.ImagePath),
            Call.ScanFile (c.GetImagePathFromCommand result.ImagePath)] }
    ∧ scanCount (HuntT1050.body p c st result).calls = scanCount st.calls + 1
    ∧ (∀ scan : String → Bool,
        HuntT1050.body p { c with ScanFile := scan } st result = HuntT1050.body p c st result)
    ∧ HuntT1050.Scan p c [result] = 2 := by
  have hbody : ∀ (c' : Collaborators) (st' : ScanState),
      c'.IsLolbinMalicious = c.IsLolbinMalicious →
      c'.GetImagePathFromCommand = c.GetImagePathFromCommand →
      c'.GetFileExists = c.GetFileExists → c'.GetFileSigned = c.GetFileSigned →
      st'.findings.count result.pair = 0 →
      HuntT1050.body p c' st' result =
        { detections := st'.detections + 2
          findings := (result.pair, true) :: st'.findings
          reaction := st'.reaction ++ [Notification.EventIdentified result,
            Notification.FileIdentified (c.GetImagePathFromCommand result.ImagePath)]
          calls := st'.calls ++ [Call.IsLolbinMalicious result.ImagePath,
            Call.GetImagePathFromCommand result.ImagePath,
            Call.File (c.GetImagePathFromCommand result.ImagePath),
            Call.GetFileExists (c.GetImagePathFromCommand result.ImagePath),
            Call.GetFileSigned (c.GetImagePathFromCommand result.ImagePath),
            Call.ScanFile (c.GetImagePathFromCommand result.ImagePath)] } := by
    intro c' st' h1 h2 h3 h4 h
    have hrule : firstMatch p c' result.pair = Rule.Unsigned := by
      simp [firstMatch, h1, h2, h3, h4, hlolbin, hexists, hunsigned]
    rw [body_fresh p c' h]
    simp [helperCalls, hrule, h2, h3, hexists, Rule.severity, Rule.verdict,
      Rule.notifications, Rule.fileIdentified]
  refine ⟨hbody c st rfl rfl rfl rfl hfresh, ?_, ?_, ?_⟩
  · rw [hbody c st rfl rfl rfl rfl hfresh]
    simp [scanCount, Call.isScan, List.countP_append]
  · intro scan
    rw [hbody c st rfl rfl rfl rfl hfresh, hbody { c with ScanFile := scan } st rfl rfl rfl rfl hfresh]
  · rw [Scan_eq, loop_singleton, hbody c _ rfl rfl rfl rfl (start_fresh _)]
    rfl

/-- C3 at the scenario of the specification: the service Updater with an existing, unsigned
image. -/
theorem C3_unsigned_binary_witness :
    (evUpdater.ServiceName = "Updater")
    ∧ HuntT1050.body .Normal (demo 4) HuntT1050.start evUpdater =
        { detections := HuntT1050.start.detections + 2
          findings := (evUpdater.pair, true) :: HuntT1050.start.findings
          reaction := HuntT1050.start.reaction ++ [Notification.EventIdentified evUpdater,
            Notification.FileIdentified ((demo 4).GetImagePathFromCommand evUpdater.ImagePath)]
          calls := HuntT1050.start.calls ++ [Call.IsLolbinMalicious evUpdater.ImagePath,
            Call.GetImagePathFromCommand evUpdater.ImagePath,
            Call.File ((demo 4).GetImagePathFromCommand evUpdater.ImagePath),
            Call.GetFileExists ((demo 4).GetImagePathFromCommand evUpdater.ImagePath),
            Call.GetFileSigned ((demo 4).GetImagePathFromCommand evUpdater.ImagePath),
            Call.ScanFile ((demo 4).GetImagePathFromCommand evUpdater.ImagePath)] }
    ∧ scanCount (HuntT1050.body .Normal (demo 4) HuntT1050.start evUpdater).calls
        = scanCount HuntT1050.start.calls + 1
    ∧ (∀ scan : String → Bool,
        HuntT1050.body .Normal { demo 4 with ScanFile := scan } HuntT1050.start evUpdater
          = HuntT1050.body .Normal (demo 4) HuntT1050.start evUpdater)
    ∧ HuntT1050.Scan .Normal (demo 4) [evUpdater] = 2 :=
  ⟨by decide, C3_unsigned_binary .Normal (demo 4) HuntT1050.start evUpdater (by decide)
    (by decide) (by decide) (by decide)⟩

/-- C4 (profile difference): for an event whose key is not in the map, whose image file is
missing, whose service name has entropy 6.0, and which is neither a malicious lolbin nor
carries a PSExec or Mimikatz marker, `ScanNormal` stores the verdict false, adds 0 and emits
nothing, while `ScanIntensive` stores the verdict true, adds 2 and emits "event identified"
and "file identified". (The entropy 6.0 is above the bound 5.00; the missing file alone
already triggers the Intensive rule.) -/
theorem C4_profile_difference (c : Collaborators) (st : ScanState) (result : EventLogItem)
    (hfresh : st.findings.count result.pair = 0)
    (hlolbin : c.IsLolbinMalicious result.ImagePath = false)
    (hmissing : c.GetFileExists (c.GetImagePathFromCommand result.ImagePath) = false)
    (hpsexec : wfind result.ServiceName "PSEXESVC" = false)
    (hmimikatz : wfind result.ServiceName "mimikatz" = false)
    (hmimidrv : wfind result.ServiceName "mimidrv" = false)
    (hdriver : wfind (c.GetImagePathFromCommand result.ImagePath) "mimidrv.sys" = false)
    (hentropy : c.GetShannonEntropy result.ServiceName = 6.0) :
    HuntT1050.ScanNormal.body c st result =
        { detections := st.detections
          findings := (result.pair, false) :: st.findings
          reaction := st.reaction
          calls := st.calls ++ [Call.IsLolbinMalicious result.ImagePath,
            Call.GetImagePathFromCommand result.ImagePath,
            Call.File (c.GetImagePathFromCommand result.ImagePath),
            Call.GetFileExists (c.GetImagePathFromCommand result.ImagePath)] }
    ∧ HuntT1050.ScanIntensive.body c st result =
        { detections := st.detections + 2
          findings := (result.pair, true) :: st.findings
          reaction := st.reaction ++ [Notification.EventIdentified result,
            Notification.FileIdentified (c.GetImagePathFromCommand result.ImagePath)]
          calls := st.calls ++ [Call.IsLolbinMalicious result.ImagePath,
            Call.GetImagePathFromCommand result.ImagePath,
            Call.File (c.GetImagePathFromCommand result.ImagePath),
            Call.GetFileExists (c.GetImagePathFromCommand result.ImagePath),
            Call.GetFileExists (c.GetImagePathFromCommand result.ImagePath)] }
    ∧ c.GetShannonEntropy result.ServiceName > 5.00
    ∧ HuntT1050.ScanNormal c [result] = 0
    ∧ HuntT1050.ScanIntensive c [result] = 2 := by
  have hN : firstMatch .Normal c result.pair = Rule.NoDetection := by
    simp [firstMatch, anomalyTrigger, hlolbin, hmissing, hpsexec, hmimikatz, hmimidrv, hdriver]
  have hI : firstMatch .Intensive c result.pair = Rule.Anomaly := by
    simp [firstMatch, anomalyTrigger, hlolbin, hmissing, hpsexec, hmimikatz, hmimidrv, hdriver]
  have hbN : ∀ st' : ScanState, st'.findings.count result.pair = 0 →
      HuntT1050.ScanNormal.body c st' result =
        { detections := st'.detections
          findings := (result.pair, false) :: st'.findings
          reaction := st'.reaction
          calls := st'.calls ++ [Call.IsLolbinMalicious result.ImagePath,
            Call.GetImagePathFromCommand result.ImagePath,
            Call.File (c.GetImagePathFromCommand result.ImagePath),
            Call.GetFileExists (c.GetImagePathFromCommand result.ImagePath)] } := by
    intro st' h
    have := body_fresh .Normal c h
    simp only [HuntT1050.body] at this
    rw [this]
    simp [helperCalls, anomalyCalls, hN, hmissing, Rule.severity, Rule.verdict,
      Rule.notifications, Rule.fileIdentified]
  have hbI : ∀ st' : ScanState, st'.findings.count result.pair = 0 →
      HuntT1050.ScanIntensive.body c st' result =
        { detections := st'.detections + 2
          findings := (result.pair, true) :: st'.findings
          reaction := st'.reaction ++ [Notification.EventIdentified result,
            Notification.FileIdentified (c.GetImagePathFromCommand result.ImagePath)]
          calls := st'.calls ++ [Call.IsLolbinMalicious result.ImagePath,
            Call.GetImagePathFromCommand result.ImagePath,
            Call.File (c.GetImagePathFromCommand result.ImagePath),
            Call.GetFileExists (c.GetImagePathFromCommand result.ImagePath),
            Call.GetFileExists (c.GetImagePathFromCommand result.ImagePath)] } := by
    intro st' h
    have := body_fresh .Intensive c h
    simp only [HuntT1050.body] at this
    rw [this]
    simp [helperCalls, anomalyCalls, hI, hmissing, Rule.severity, Rule.verdict,
      Rule.notifications, Rule.fileIdentified]
  refine ⟨hbN st hfresh, hbI st hfresh, ?_, ?_, ?_⟩
  · rw [hentropy]; norm_num
  · show (HuntT1050.finish (HuntT1050.loop .Normal c [result])).detections = 0
    rw [loop_singleton]
    show (HuntT1050.ScanNormal.body c HuntT1050.start result).detections = 0
    rw [hbN _ (start_fresh _)]
    rfl
  · show (HuntT1050.finish (HuntT1050.loop .Intensive c [result])).detections = 2
    rw [loop_singleton]
    show (HuntT1050.ScanIntensive.body c HuntT1050.start result).detections = 2
    rw [hbI _ (start_fresh _)]
    rfl

/-- C4 at a concrete input: a missing image and entropy 6.0 for every name. -/
theorem C4_profile_difference_witness :
    (demo 6.0).GetShannonEntropy evMissing.ServiceName = 6.0
    ∧ HuntT1050.ScanNormal (demo 6.0) [evMissing] = 0
    ∧ HuntT1050.ScanIntensive (demo 6.0) [evMissing] = 2 :=
  have h := C4_profile_difference (demo 6.0) HuntT1050.start evMissing (by decide) (by decide)
    (by decide) (by decide) (by decide) (by decide) (by decide) rfl
  ⟨rfl, h.2.2.2.1, h.2.2.2.2⟩

/-- C5, as stated, fails: the event `evMissing` reaches rule 6 of `ScanIntensive` with a key
not in the map (it is no lolbin, its image is not an existing unsigned file, it carries no
marker), its service name has entropy exactly 3.00, and yet rule 6 triggers, because the
image file does not exist: verdict true, 2 added, both notifications. -/
theorem C5_entropy_boundary_counterexample :
    HuntT1050.start.findings.count evMissing.pair = 0
    ∧ (demo 3.00).IsLolbinMalicious evMissing.ImagePath = false
    ∧ ((demo 3.00).GetFileExists ((demo 3.00).GetImagePathFromCommand evMissing.ImagePath)
        && !(demo 3.00).GetFileSigned ((demo 3.00).GetImagePathFromCommand evMissing.ImagePath))
        = false
    ∧ wfind evMissing.ServiceName "PSEXESVC" = false
    ∧ wfind evMissing.ServiceName "mimikatz" = false
    ∧ wfind evMissing.ServiceName "mimidrv" = false
    ∧ wfind ((demo 3.00).GetImagePathFromCommand evMissing.ImagePath) "mimidrv.sys" = false
    ∧ (demo 3.00).GetShannonEntropy evMissing.ServiceName = 3.00
    ∧ HuntT1050.ScanIntensive.body (demo 3.00) HuntT1050.start evMissing =
        { detections := 2
          findings := [(evMissing.pair, true)]
          reaction := [Notification.BeginHunt, Notification.EventIdentified evMissing,
            Notification.FileIdentified "C:/Temp/gone.exe"]
          calls := [Call.IsLolbinMalicious "C:/Temp/gone.exe",
            Call.GetImagePathFromCommand "C:/Temp/gone.exe", Call.File "C:/Temp/gone.exe",
            Call.GetFileExists "C:/Temp/gone.exe", Call.GetFileExists "C:/Temp/gone.exe"] }
    ∧ HuntT1050.ScanIntensive (demo 3.00) [evMissing] = 2 :=
  ⟨by decide, by decide, by decide, by decide, by decide, by decide, by decide, rfl,
    by decide, by decide⟩

/-- C5, amended: in `ScanIntensive`, an event that reaches rule 6 (key not in the map, no
match on rules 2 to 5) whose image file exists and whose service name has entropy exactly
3.00 or exactly 5.00 does not trigger rule 6: the verdict false is stored, 0 is added and
nothing is emitted. -/
theorem C5_entropy_boundary (c : Collaborators) (st : ScanState) (result : EventLogItem)
    (hfresh : st.findings.count result.pair = 0)
    (hlolbin : c.IsLolbinMalicious result.ImagePath = false)
    (hrule3 : (c.GetFileExists (c.GetImagePathFromCommand result.ImagePath)
        && !c.GetFileSigned (c.GetImagePathFromCommand result.ImagePath)) = false)
    (hpsexec : wfind result.ServiceName "PSEXESVC" = false)
    (hmimikatz : wfind result.ServiceName "mimikatz" = false)
    (hmimidrv : wfind result.ServiceName "mimidrv" = false)
    (hdriver : wfind (c.GetImagePathFromCommand result.ImagePath) "mimidrv.sys" = false)
    (hexists : c.GetFileExists (c.GetImagePathFromCommand result.ImagePath) = true)
    (hentropy : c.GetShannonEntropy result.ServiceName = 3.00
      ∨ c.GetShannonEntropy result.ServiceName = 5.00) :
    HuntT1050.ScanIntensive.body c st result =
        { detections := st.detections
          findings := (result.pair, false) :: st.findings
          reaction := st.reaction
          calls := st.calls ++ [Call.IsLolbinMalicious result.ImagePath,
            Call.GetImagePathFromCommand result.ImagePath,
            Call.File (c.GetImagePathFromCommand result.ImagePath),
            Call.GetFileExists (c.GetImagePathFromCommand result.ImagePath),
            Call.GetFileSigned (c.GetImagePathFromCommand result.ImagePath),
            Call.GetFileExists (c.GetImagePathFromCommand result.ImagePath),
            Call.GetShannonEntropy result.ServiceName,
            Call.GetShannonEntropy result.ServiceName] } := by
  have hsigned : c.GetFileSigned (c.GetImagePathFromCommand result.ImagePath) = true := by
    rw [hexists] at hrule3
    simpa using hrule3
  have h3 : ¬ c.GetShannonEntropy result.ServiceName < 3 := by
    rcases hentropy with h | h <;> rw [h] <;> norm_num
  have h5 : ¬ 5 < c.GetShannonEntropy result.ServiceName := by
    rcases hentropy with h | h <;> rw [h] <;> norm_num
  have hI : firstMatch .Intensive c result.pair = Rule.NoDetection := by
    simp [firstMatch, anomalyTrigger, hlolbin, hexists, hsigned, hpsexec, hmimikatz, hmimidrv,
      hdriver, h3, h5]
  have := body_fresh .Intensive c hfresh
  simp only [HuntT1050.body] at this
  rw [this]
  simp [helperCalls, anomalyCalls, hI, hexists, h3, Rule.severity, Rule.verdict,
    Rule.notifications, Rule.fileIdentified]

/-- C5 (amended) at a concrete input: a signed, existing image and entropy exactly 5.00. -/
theorem C5_entropy_boundary_witness :
    (demo 5.00).GetShannonEntropy evSigned.ServiceName = 5.00
    ∧ HuntT1050.ScanIntensive.body (demo 5.00) HuntT1050.start evSigned =
        { detections := HuntT1050.start.detections
          findings := (evSigned.pair, false) :: HuntT1050.start.findings
          reaction := HuntT1050.start.reaction
          calls := HuntT1050.start.calls ++ [Call.IsLolbinMalicious evSigned.ImagePath,
            Call.GetImagePathFromCommand evSigned.ImagePath,
            Call.File ((demo 5.00).GetImagePathFromCommand evSigned.ImagePath),
            Call.GetFileExists ((demo 5.00).GetImagePathFromCommand evSigned.ImagePath),
            Call.GetFileSigned ((demo 5.00).GetImagePathFromCommand evSigned.ImagePath),
            Call.GetFileExists ((demo 5.00).GetImagePathFromCommand evSigned.ImagePath),
            Call.GetShannonEntropy evSigned.ServiceName,
            Call.GetShannonEntropy evSigned.ServiceName] } :=
  ⟨rfl, C5_entropy_boundary (demo 5.00) HuntT1050.start evSigned (by decide) (by decide)
    (by decide) (by decide) (by decide) (by decide) (by decide) (by decide) (Or.inr rfl)⟩

/-- C6 (exact-case markers): `find` matches character by character, so the upper-case
`MIMIKATZsvc` and the lower-case `psexesvc` contain none of the markers. For an event whose
key is not in the map, that is no malicious lolbin and whose image is not an existing
unsigned file: either scan adds 1 (the PSExec rule) exactly when the service name contains
`PSEXESVC`; `ScanNormal` adds 2 (the Mimikatz rule) exactly when it does not and the name
contains `mimikatz` or `mimidrv` or the extracted path contains `mimidrv.sys`; and when none
of the four markers occurs in that exact case, `ScanNormal` stores the verdict false, adds 0
and emits nothing. In both scans the body leaves the state of the Mimikatz rule (2 added,
both notifications, verdict true, no helper call after the file lookup) exactly when the
name does not contain `PSEXESVC` and one of the three Mimikatz markers occurs in its exact
case. So in `ScanIntensive` too an event without an exact-case marker is not classified by
the Mimikatz rule: it goes on to rule 6, and is stored with the verdict false, adding 0 and
emitting nothing, when its image exists and its entropy lies within 3.00 and 5.00, and is
an anomaly, after the second file lookup of rule 6, otherwise. -/
theorem C6_case_sensitive_markers (c : Collaborators) (st : ScanState) (result : EventLogItem)
    (hfresh : st.findings.count result.pair = 0)
    (hlolbin : c.IsLolbinMalicious result.ImagePath = false)
    (hrule3 : (c.GetFileExists (c.GetImagePathFromCommand result.ImagePath)
        && !c.GetFileSigned (c.GetImagePathFromCommand result.ImagePath)) = false) :
    (∀ s needle : String, wfind s needle = true ↔ needle.toList <:+: s.toList)
    ∧ (wfind "MIMIKATZsvc" "mimikatz" = false ∧ wfind "MIMIKATZsvc" "mimidrv" = false
        ∧ wfind "MIMIKATZsvc" "PSEXESVC" = false ∧ wfind "psexesvc" "PSEXESVC" = false
        ∧ wfind "psexesvc" "mimikatz" = false ∧ wfind "psexesvc" "mimidrv" = false
        ∧ wfind "C:/Temp/MIMIDRV.SYS" "mimidrv.sys" = false)
    ∧ (∀ p : Profile, (HuntT1050.body p c st result).detections = st.detections + 1
        ↔ wfind result.ServiceName "PSEXESVC" = true)
    ∧ ((HuntT1050.ScanNormal.body c st result).detections = st.detections + 2
        ↔ wfind result.ServiceName "PSEXESVC" = false
          ∧ (wfind result.ServiceName "mimikatz" = true ∨ wfind result.ServiceName "mimidrv" = true
            ∨ wfind (c.GetImagePathFromCommand result.ImagePath) "mimidrv.sys" = true))
    ∧ (wfind result.ServiceName "PSEXESVC" = false → wfind result.ServiceName "mimikatz" = false
        → wfind result.ServiceName "mimidrv" = false
        → wfind (c.GetImagePathFromCommand result.ImagePath) "mimidrv.sys" = false
        → HuntT1050.ScanNormal.body c st result =
            { detections := st.detections
              findings := (result.pair, false) :: st.findings
              reaction := st.reaction
              calls := st.calls ++ [Call.IsLolbinMalicious result.ImagePath,
                Call.GetImagePathFromCommand result.ImagePath,
                Call.File (c.GetImagePathFromCommand result.ImagePath),
                Call.GetFileExists (c.GetImagePathFromCommand result.ImagePath)]
                ++ (if c.GetFileExists (c.GetImagePathFromCommand result.ImagePath) then
                      [Call.GetFileSigned (c.GetImagePathFromCommand result.ImagePath)]
                    else []) })
    ∧ (∀ p : Profile,
        HuntT1050.body p c st result =
            { detections := st.detections + 2
              findings := (result.pair, true) :: st.findings
              reaction := st.reaction ++ [Notification.EventIdentified result,
                Notification.FileIdentified (c.GetImagePathFromCommand result.ImagePath)]
              calls := st.calls ++ [Call.IsLolbinMalicious result.ImagePath,
                Call.GetImagePathFromCommand result.ImagePath,
                Call.File (c.GetImagePathFromCommand result.ImagePath),
                Call.GetFileExists (c.GetImagePathFromCommand result.ImagePath)]
                ++ (if c.GetFileExists (c.GetImagePathFromCommand result.ImagePath) then
                      [Call.GetFileSigned (c.GetImagePathFromCommand result.ImagePath)]
                    else []) }
        ↔ wfind result.ServiceName "PSEXESVC" = false
          ∧ (wfind result.ServiceName "mimikatz" = true ∨ wfind result.ServiceName "mimidrv" = true
            ∨ wfind (c.GetImagePathFromCommand result.ImagePath) "mimidrv.sys" = true))
    ∧ (wfind result.ServiceName "PSEXESVC" = false → wfind result.ServiceName "mimikatz" = false
        → wfind result.ServiceName "mimidrv" = false
        → wfind (c.GetImagePathFromCommand result.ImagePath) "mimidrv.sys" = false
        → c.GetFileExists (c.GetImagePathFromCommand result.ImagePath) = true
        → 3.00 ≤ c.GetShannonEntropy result.ServiceName
        → c.GetShannonEntropy result.ServiceName ≤ 5.00
        → HuntT1050.ScanIntensive.body c st result =
            { detections := st.detections
              findings := (result.pair, false) :: st.findings
              reaction := st.reaction
              calls := st.calls ++ [Call.IsLolbinMalicious result.ImagePath,
                Call.GetImagePathFromCommand result.ImagePath,
                Call.File (c.GetImagePathFromCommand result.ImagePath),
                Call.GetFileExists (c.GetImagePathFromCommand result.ImagePath),
                Call.GetFileSigned (c.GetImagePathFromCommand result.ImagePath),
                Call.GetFileExists (c.GetImagePathFromCommand result.ImagePath),
                Call.GetShannonEntropy result.ServiceName,
                Call.GetShannonEntropy result.ServiceName] })
    ∧ (wfind result.ServiceName "PSEXESVC" = false → wfind result.ServiceName "mimikatz" = false
        → wfind result.ServiceName "mimidrv" = false
        → wfind (c.GetImagePathFromCommand result.ImagePath) "mimidrv.sys" = false
        → (c.GetFileExists (c.GetImagePathFromCommand result.ImagePath) = false
            ∨ c.GetShannonEntropy result.ServiceName < 3.00
            ∨ c.GetShannonEntropy result.ServiceName > 5.00)
        → HuntT1050.ScanIntensive.body c st result =
            { detections := st.detections + 2
              findings := (result.pair, true) :: st.findings
              reaction := st.reaction ++ [Notification.EventIdentified result,
                Notification.FileIdentified (c.GetImagePathFromCommand result.ImagePath)]
              calls := st.calls ++ [Call.IsLolbinMalicious result.ImagePath,
                Call.GetImagePathFromCommand result.ImagePath,
                Call.File (c.GetImagePathFromCommand result.ImagePath),
                Call.GetFileExists (c.GetImagePathFromCommand result.ImagePath)]
                ++ (if c.GetFileExists (c.GetImagePathFromCommand result.ImagePath) then
                      [Call.GetFileSigned (c.GetImagePathFromCommand result.ImagePath)]
                    else [])
                ++ [Call.GetFileExists (c.GetImagePathFromCommand result.ImagePath)]
                ++ (if c.GetFileExists (c.GetImagePathFromCommand result.ImagePath) then
                      (if c.GetShannonEntropy result.ServiceName < 3.00 then
                        [Call.GetShannonEntropy result.ServiceName]
                      else [Call.GetShannonEntropy result.ServiceName,
                        Call.GetShannonEntropy result.ServiceName])
                    else []) }) := by
  have hN : HuntT1050.ScanNormal.body c st result = HuntT1050.body .Normal c st result := rfl
  have hI : HuntT1050.ScanIntensive.body c st result = HuntT1050.body .Intensive c st result :=
    rfl
  refine ⟨wfind_iff, by decide, ?_, ?_, ?_, ?_, ?_, ?_⟩
  · intro p
    rw [body_fresh p c hfresh]
    cases hP : wfind result.ServiceName "PSEXESVC" <;>
    cases hM : (wfind result.ServiceName "mimikatz" || wfind result.ServiceName "mimidrv"
        || wfind (c.GetImagePathFromCommand result.ImagePath) "mimidrv.sys") <;>
    cases hA : anomalyTrigger p c result.ServiceName (c.GetImagePathFromCommand result.ImagePath) <;>
    simp [firstMatch, hlolbin, hrule3, hP, hM, hA, Rule.severity]
  · rw [hN, body_fresh .Normal c hfresh]
    cases hP : wfind result.ServiceName "PSEXESVC" <;>
    cases h1 : wfind result.ServiceName "mimikatz" <;>
    cases h2 : wfind result.ServiceName "mimidrv" <;>
    cases h3 : wfind (c.GetImagePathFromCommand result.ImagePath) "mimidrv.sys" <;>
    simp [firstMatch, anomalyTrigger, hlolbin, hrule3, hP, h1, h2, h3, Rule.severity]
  · intro hP h1 h2 h3
    have hrule : firstMatch .Normal c result.pair = Rule.NoDetection := by
      simp [firstMatch, anomalyTrigger, hlolbin, hrule3, hP, h1, h2, h3]
    rw [hN, body_fresh .Normal c hfresh]
    simp [helperCalls, anomalyCalls, hrule, Rule.severity, Rule.verdict, Rule.notifications,
      Rule.fileIdentified]
  · intro p
    rw [body_eq_mimikatz_iff p c hfresh hlolbin]
    have h := (firstMatch_chain p c result.pair).2.2.2.1
    simp only [EventLogItem.pair_fst, EventLogItem.pair_snd] at h
    rw [h]
    constructor
    · rintro ⟨_, _, h3, h4⟩
      exact ⟨h3, h4⟩
    · rintro ⟨h3, h4⟩
      exact ⟨hlolbin, hrule3, h3, h4⟩
  · intro hP h1 h2 h3 hX hE3 hE5
    have hS : c.GetFileSigned (c.GetImagePathFromCommand result.ImagePath) = true := by
      rw [hX] at hrule3
      simpa using hrule3
    rw [lit_three] at hE3
    rw [lit_five] at hE5
    have hrule : firstMatch .Intensive c result.pair = Rule.NoDetection := by
      rw [firstMatch_intensive_noDetection_iff]
      exact ⟨hlolbin, hX, hS, hP, h1, h2, h3, hE3, hE5⟩
    rw [hI, body_fresh .Intensive c hfresh]
    simp [helperCalls, anomalyCalls, hrule, hX, not_lt.2 hE3, Rule.severity, Rule.verdict,
      Rule.notifications, Rule.fileIdentified]
  · intro hP h1 h2 h3 hA
    simp only [lit_three, lit_five] at hA ⊢
    have hrule : firstMatch .Intensive c result.pair = Rule.Anomaly := by
      have h := (firstMatch_chain .Intensive c result.pair).2.2.2.2.1
      simp only [EventLogItem.pair_fst, EventLogItem.pair_snd, lit_three, lit_five] at h
      exact h.2 ⟨hlolbin, hrule3, hP, h1, h2, h3, trivial, hA⟩
    rw [hI, body_fresh .Intensive c hfresh]
    by_cases hX : c.GetFileExists (c.GetImagePathFromCommand result.ImagePath) = true <;>
    by_cases hE : c.GetShannonEntropy result.ServiceName < 3 <;>
    simp [helperCalls, anomalyCalls, hrule, hX, hE, Rule.severity, Rule.verdict,
      Rule.notifications, Rule.fileIdentified]

/-- C6 at concrete inputs: the service `MIMIKATZsvc` with the missing image `MIMIDRV.SYS`
in `ScanNormal`, and the service `MIMIKATZsvc` with a signed, existing image and entropy 4
in `ScanIntensive`: neither is detected. -/
theorem C6_case_sensitive_markers_witness :
    (evUpperCase.ServiceName = "MIMIKATZsvc" ∧ evUpperSigned.ServiceName = "MIMIKATZsvc")
    ∧ HuntT1050.ScanNormal.body (demo 4) HuntT1050.start evUpperCase =
        { detections := 0
          findings := [(evUpperCase.pair, false)]
          reaction := [Notification.BeginHunt]
          calls := [Call.IsLolbinMalicious "C:/Temp/MIMIDRV.SYS",
            Call.GetImagePathFromCommand "C:/Temp/MIMIDRV.SYS", Call.File "C:/Temp/MIMIDRV.SYS",
            Call.GetFileExists "C:/Temp/MIMIDRV.SYS"] }
    ∧ HuntT1050.ScanIntensive.body (demo 4) HuntT1050.start evUpperSigned =
        { detections := 0
          findings := [(evUpperSigned.pair, false)]
          reaction := [Notification.BeginHunt]
          calls := [Call.IsLolbinMalicious "C:/Temp/signed.exe",
            Call.GetImagePathFromCommand "C:/Temp/signed.exe", Call.File "C:/Temp/signed.exe",
            Call.GetFileExists "C:/Temp/signed.exe", Call.GetFileSigned "C:/Temp/signed.exe",
            Call.GetFileExists "C:/Temp/signed.exe", Call.GetShannonEntropy "MIMIKATZsvc",
            Call.GetShannonEntropy "MIMIKATZsvc"] } :=
  ⟨⟨rfl, rfl⟩,
    (C6_case_sensitive_markers (demo 4) HuntT1050.start evUpperCase (by decide) (by decide)
      (by decide)).2.2.2.2.1 (by decide) (by decide) (by decide) (by decide),
    (C6_case_sensitive_markers (demo 4) HuntT1050.start evUpperSigned (by decide) (by decide)
      (by decide)).2.2.2.2.2.2.1 (by decide) (by decide) (by decide) (by decide) (by decide)
      (by show (3.00 : ℚ) ≤ 4; norm_num) (by show (4 : ℚ) ≤ 5.00; norm_num)⟩

/-- C7 (Intensive, missing image): in `ScanIntensive`, an event whose key is not in the map,
whose command is no malicious lolbin, whose extracted image file does not exist and whose
name and path carry no PSExec or Mimikatz marker triggers the anomaly rule, whatever the
entropy of its service name: it adds exactly 2, emits "event identified" and "file
identified" and stores the verdict true; the entropy is not even computed. A scan of that
single event returns 2. -/
theorem C7_intensive_missing_image (c : Collaborators) (st : ScanState)
    (result : EventLogItem)
    (hfresh : st.findings.count result.pair = 0)
    (hlolbin : c.IsLolbinMalicious result.ImagePath = false)
    (hmissing : c.GetFileExists (c.GetImagePathFromCommand result.ImagePath) = false)
    (hpsexec : wfind result.ServiceName "PSEXESVC" = false)
    (hmimikatz : wfind result.ServiceName "mimikatz" = false)
    (hmimidrv : wfind result.ServiceName "mimidrv" = false)
    (hdriver : wfind (c.GetImagePathFromCommand result.ImagePath) "mimidrv.sys" = false) :
    HuntT1050.ScanIntensive.body c st result =
        { detections := st.detections + 2
          findings := (result.pair, true) :: st.findings
          reaction := st.reaction ++ [Notification.EventIdentified result,
            Notification.FileIdentified (c.GetImagePathFromCommand result.ImagePath)]
          calls := st.calls ++ [Call.IsLolbinMalicious result.ImagePath,
            Call.GetImagePathFromCommand result.ImagePath,
            Call.File (c.GetImagePathFromCommand result.ImagePath),
            Call.GetFileExists (c.GetImagePathFromCommand result.ImagePath),
            Call.GetFileExists (c.GetImagePathFromCommand result.ImagePath)] }
    ∧ (∀ entropy : String → ℚ,
        HuntT1050.ScanIntensive.body { c with GetShannonEntropy := entropy } st result
          = HuntT1050.ScanIntensive.body c st result)
    ∧ HuntT1050.ScanIntensive c [result] = 2 := by
  have hb : ∀ (c' : Collaborators) (st' : ScanState),
      c'.IsLolbinMalicious = c.IsLolbinMalicious →
      c'.GetImagePathFromCommand = c.GetImagePathFromCommand →
      c'.GetFileExists = c.GetFileExists →
      st'.findings.count result.pair = 0 →
      HuntT1050.ScanIntensive.body c' st' result =
        { detections := st'.detections + 2
          findings := (result.pair, true) :: st'.findings
          reaction := st'.reaction ++ [Notification.EventIdentified result,
            Notification.FileIdentified (c.GetImagePathFromCommand result.ImagePath)]
          calls := st'.calls ++ [Call.IsLolbinMalicious result.ImagePath,
            Call.GetImagePathFromCommand result.ImagePath,
            Call.File (c.GetImagePathFromCommand result.ImagePath),
            Call.GetFileExists (c.GetImagePathFromCommand result.ImagePath),
            Call.GetFileExists (c.GetImagePathFromCommand result.ImagePath)] } := by
    intro c' st' e1 e2 e3 h
    have hI : firstMatch .Intensive c' result.pair = Rule.Anomaly := by
      simp [firstMatch, anomalyTrigger, e1, e2, e3, hlolbin, hmissing, hpsexec, hmimikatz,
        hmimidrv, hdriver]
    have := body_fresh .Intensive c' h
    simp only [HuntT1050.body] at this
    rw [this]
    simp [helperCalls, anomalyCalls, hI, e2, e3, hmissing, Rule.severity, Rule.verdict,
      Rule.notifications, Rule.fileIdentified]
  refine ⟨hb c st rfl rfl rfl hfresh, ?_, ?_⟩
  · intro entropy
    rw [hb c st rfl rfl rfl hfresh, hb { c with GetShannonEntropy := entropy } st rfl rfl rfl hfresh]
  · show (HuntT1050.finish (HuntT1050.loop .Intensive c [result])).detections = 2
    rw [loop_singleton]
    show (HuntT1050.ScanIntensive.body c HuntT1050.start result).detections = 2
    rw [hb c _ rfl rfl rfl (start_fresh _)]
    rfl

/-- C7 at the scenario of the specification: the single event of the service `aXq9Zr3T`
with an image that does not exist, here with an entropy inside the bounds. -/
theorem C7_intensive_missing_image_witness :
    evMissing.ServiceName = "aXq9Zr3T"
    ∧ (demo 3).GetFileExists ((demo 3).GetImagePathFromCommand evMissing.ImagePath) = false
    ∧ HuntT1050.ScanIntensive (demo 3) [evMissing] = 2 :=
  ⟨rfl, by decide, (C7_intensive_missing_image (demo 3) HuntT1050.start evMissing (by decide)
    (by decide) (by decide) (by decide) (by decide) (by decide) (by decide)).2.2⟩

/-- C8 (no repeated checks): in either scan, an event whose key is already in the map makes
no helper call at all (no lolbin check, path extraction, file or signature lookup, content
scan or entropy), adds nothing and leaves the map as it is. Over a whole scan the helper calls
are, in order, those of the list with every later occurrence of a key removed; the content
scan runs once for each distinct key classified by the unsigned-binary rule and for no other,
hence at most as often as there are distinct keys. When the first of two events with the same
key is benign, the second changes nothing: no notification, nothing added, no call. -/
theorem C8_no_repeated_checks (p : Profile) (c : Collaborators) (evs : List EventLogItem)
    (st : ScanState) (e : EventLogItem) (hcached : st.findings.count e.pair ≠ 0) :
    ((HuntT1050.body p c st e).calls = st.calls
      ∧ (HuntT1050.body p c st e).detections = st.detections
      ∧ (HuntT1050.body p c st e).findings = st.findings)
    ∧ (HuntT1050.loop p c evs).calls = (HuntT1050.loop p c (keepFirst [] evs)).calls
    ∧ scanCount (HuntT1050.loop p c evs).calls =
        (evs.map EventLogItem.pair).dedup.countP
          (fun k => decide (firstMatch p c k = Rule.Unsigned))
    ∧ scanCount (HuntT1050.loop p c evs).calls ≤ (evs.map EventLogItem.pair).dedup.length
    ∧ (∀ e1 e2 : EventLogItem, e2.pair = e1.pair →
        (HuntT1050.loop p c [e1]).findings.at_ e1.pair = some false →
        HuntT1050.loop p c [e1, e2] = HuntT1050.loop p c [e1]) := by
  have hcount : scanCount (HuntT1050.loop p c evs).calls =
      (evs.map EventLogItem.pair).dedup.countP
        (fun k => decide (firstMatch p c k = Rule.Unsigned)) := by
    rw [loop_scanCount]
    exact (keepFirst_pair_perm_dedup evs).countP_eq _
  refine ⟨?_, ?_, hcount, ?_, ?_⟩
  · cases h : st.findings.lookup e.pair with
    | none => exact absurd (Findings.count_of_lookup_none h) hcached
    | some v =>
      rw [body_eq_step, step_hit p c h]
      exact ⟨rfl, rfl, rfl⟩
  · rw [loop_calls, loop_calls, keepFirst_keepFirst]
  · rw [hcount]
    exact List.countP_le_length _
  · intro e1 e2 hkey hbenign
    have h1 : (HuntT1050.loop p c [e1]).findings.lookup e2.pair = some false := by
      rw [hkey]; exact hbenign
    have h2 : HuntT1050.loop p c [e1, e2]
        = step p c (HuntT1050.loop p c [e1]) e2 := by
      rw [loop_eq_foldl, loop_eq_foldl]
      rfl
    rw [h2, step_hit p c h1]
    simp

/-- C8 at a concrete input: a signed service logged twice, after an unsigned one. -/
theorem C8_no_repeated_checks_witness :
    (HuntT1050.loop .Normal (demo 4) [evUpdater, evSigned]).findings.count evSigned.pair ≠ 0
    ∧ (HuntT1050.body .Normal (demo 4)
          (HuntT1050.loop .Normal (demo 4) [evUpdater, evSigned]) evSigned).calls
        = (HuntT1050.loop .Normal (demo 4) [evUpdater, evSigned]).calls
    ∧ scanCount (HuntT1050.loop .Normal (demo 4) [evUpdater, evSigned, evSigned]).calls ≤
        ([evUpdater, evSigned, evSigned].map EventLogItem.pair).dedup.length
    ∧ ((HuntT1050.loop .Normal (demo 4) [evSigned]).findings.at_ evSigned.pair = some false
        ∧ HuntT1050.loop .Normal (demo 4) [evSigned, evSigned]
          = HuntT1050.loop .Normal (demo 4) [evSigned]) :=
  have h := C8_no_repeated_checks .Normal (demo 4) [evUpdater, evSigned, evSigned]
    (HuntT1050.loop .Normal (demo 4) [evUpdater, evSigned]) evSigned (by decide)
  ⟨by decide, h.1.1, h.2.2.2.1, by decide, h.2.2.2.2 evSigned evSigned rfl (by decide)⟩

/-- C9 (the count is a sum): in either scan the returned integer is the sum, over the
distinct (ServiceName, ImagePath) keys of the list, of the severity of the first matching
rule for that key, which is what a scan of one event with that key returns and is 0, 1 or 2.
So the result is at least 0, at most twice the number of distinct keys, and equal to the
result for the list with every later occurrence of a key removed. -/
theorem C9_detection_count_sum (p : Profile) (c : Collaborators) (evs : List EventLogItem) :
    HuntT1050.Scan p c evs =
        ∑ k ∈ (evs.map EventLogItem.pair).toFinset, (firstMatch p c k).severity
    ∧ (∀ e : EventLogItem, HuntT1050.Scan p c [e] = (firstMatch p c e.pair).severity)
    ∧ (∀ k : Key, (firstMatch p c k).severity = 0 ∨ (firstMatch p c k).severity = 1
        ∨ (firstMatch p c k).severity = 2)
    ∧ 0 ≤ HuntT1050.Scan p c evs
    ∧ HuntT1050.Scan p c evs ≤ 2 * ((evs.map EventLogItem.pair).toFinset.card : Int)
    ∧ HuntT1050.Scan p c evs = HuntT1050.Scan p c (keepFirst [] evs) := by
  have hset : ((keepFirst [] evs).map EventLogItem.pair).toFinset
      = (evs.map EventLogItem.pair).toFinset := by
    ext k
    rw [List.mem_toFinset, List.mem_toFinset, mem_keepFirst_pair]
    simp
  have hsum : HuntT1050.Scan p c evs =
      ∑ k ∈ (evs.map EventLogItem.pair).toFinset, (firstMatch p c k).severity := by
    rw [Scan_eq, loop_detections, ← hset,
      List.sum_toFinset _ (nodup_keepFirst_pair evs [])]
  refine ⟨hsum, ?_, fun k => Rule.severity_mem _, ?_, ?_, ?_⟩
  · intro e
    rw [Scan_eq, loop_singleton, body_fresh p c (start_fresh _)]
    simp [HuntT1050.start]
  · rw [hsum]
    exact Finset.sum_nonneg (fun k _ => Rule.severity_nonneg _)
  · rw [hsum]
    calc ∑ k ∈ (evs.map EventLogItem.pair).toFinset, (firstMatch p c k).severity
        ≤ ∑ _k ∈ (evs.map EventLogItem.pair).toFinset, (2 : Int) :=
          Finset.sum_le_sum (fun k _ => Rule.severity_le_two _)
      _ = 2 * ((evs.map EventLogItem.pair).toFinset.card : Int) := by
          rw [Finset.sum_const, nsmul_eq_mul, mul_comm]
  · rw [Scan_eq, Scan_eq, loop_detections, loop_detections, keepFirst_keepFirst]

/-- C10 (order independence): with the helpers fixed, either scan gives two lists that are
permutations of each other the same detection count, the same map (the same keys with the
same verdicts: every lookup agrees, and the entries are the same up to order) and the same
numbers of "event identified" and of "file identified" notifications. -/
theorem C10_order_independence (p : Profile) (c : Collaborators)
    (evs evs' : List EventLogItem) (hperm : evs.Perm evs') :
    HuntT1050.Scan p c evs = HuntT1050.Scan p c evs'
    ∧ (∀ k : Key, (HuntT1050.run p c evs).findings.at_ k
        = (HuntT1050.run p c evs').findings.at_ k)
    ∧ (HuntT1050.run p c evs).findings.Perm (HuntT1050.run p c evs').findings
    ∧ eventCount (HuntT1050.run p c evs).reaction
        = eventCount (HuntT1050.run p c evs').reaction
    ∧ fileCount (HuntT1050.run p c evs).reaction
        = fileCount (HuntT1050.run p c evs').reaction := by
  have hkeys := keepFirst_pair_perm hperm []
  have hfind : ∀ l : List EventLogItem,
      (HuntT1050.run p c l).findings = (HuntT1050.loop p c l).findings := by
    intro l; rw [run_eq]; rfl
  refine ⟨?_, ?_, ?_, ?_, ?_⟩
  · rw [Scan_eq, Scan_eq, loop_detections, loop_detections]
    exact (hkeys.map _).sum_eq
  · intro k
    rw [hfind, hfind]
    show (HuntT1050.loop p c evs).findings.lookup k = (HuntT1050.loop p c evs').findings.lookup k
    rw [loop_lookup, loop_lookup]
    have := (hperm.map EventLogItem.pair).mem_iff (a := k)
    simp only [this]
  · rw [hfind, hfind, loop_findings, loop_findings]
    exact (List.reverse_perm _).trans (((hkeys.map _)).trans (List.reverse_perm _).symm)
  · rw [run_eq, run_eq, eventCount_finish, eventCount_finish, loop_eventCount, loop_eventCount]
    exact (hperm.map EventLogItem.pair).countP_eq _
  · rw [run_eq, run_eq, fileCount_finish, fileCount_finish, loop_fileCount, loop_fileCount]
    exact hkeys.countP_eq _

/-- C10 at a concrete input: a lolbin service logged twice and an unsigned one, in two
orders. -/
theorem C10_order_independence_witness :
    [evWhoami, evUpdater, evWhoamiAgain].Perm [evWhoamiAgain, evWhoami, evUpdater]
    ∧ HuntT1050.Scan .Normal (demo 4) [evWhoami, evUpdater, evWhoamiAgain]
        = HuntT1050.Scan .Normal (demo 4) [evWhoamiAgain, evWhoami, evUpdater]
    ∧ eventCount (HuntT1050.run .Normal (demo 4) [evWhoami, evUpdater, evWhoamiAgain]).reaction
        = eventCount
            (HuntT1050.run .Normal (demo 4) [evWhoamiAgain, evWhoami, evUpdater]).reaction :=
  have hperm : [evWhoami, evUpdater, evWhoamiAgain].Perm
      [evWhoamiAgain, evWhoami, evUpdater] := by decide
  have h := C10_order_independence .Normal (demo 4) _ _ hperm
  ⟨hperm, h.1, h.2.2.2.1⟩

/-- C11 (Mimikatz rule): in either scan, an event whose key is not in the map, that is no
malicious lolbin, whose image is not an existing unsigned file, whose service name does not
contain `PSEXESVC`, and whose service name contains `mimikatz` or `mimidrv` or whose
extracted image path contains `mimidrv.sys`, adds exactly 2, emits exactly one "event
identified" followed by one "file identified" (whether the image file exists or not), runs no
content scan and stores the verdict true. A scan of that single event returns 2. -/
theorem C11_mimikatz_rule (p : Profile) (c : Collaborators) (st : ScanState)
    (result : EventLogItem)
    (hfresh : st.findings.count result.pair = 0)
    (hlolbin : c.IsLolbinMalicious result.ImagePath = false)
    (hrule3 : (c.GetFileExists (c.GetImagePathFromCommand result.ImagePath)
        && !c.GetFileSigned (c.GetImagePathFromCommand result.ImagePath)) = false)
    (hpsexec : wfind result.ServiceName "PSEXESVC" = false)
    (hmarker : wfind result.ServiceName "mimikatz" = true
      ∨ wfind result.ServiceName "mimidrv" = true
      ∨ wfind (c.GetImagePathFromCommand result.ImagePath) "mimidrv.sys" = true) :
    HuntT1050.body p c st result =
        { detections := st.detections + 2
          findings := (result.pair, true) :: st.findings
          reaction := st.reaction ++ [Notification.EventIdentified result,
            Notification.FileIdentified (c.GetImagePathFromCommand result.ImagePath)]
          calls := st.calls ++ [Call.IsLolbinMalicious result.ImagePath,
            Call.GetImagePathFromCommand result.ImagePath,
            Call.File (c.GetImagePathFromCommand result.ImagePath),
            Call.GetFileExists (c.GetImagePathFromCommand result.ImagePath)]
            ++ (if c.GetFileExists (c.GetImagePathFromCommand result.ImagePath) then
                  [Call.GetFileSigned (c.GetImagePathFromCommand result.ImagePath)]
                else []) }
    ∧ scanCount (HuntT1050.body p c st result).calls = scanCount st.calls
    ∧ eventCount (HuntT1050.body p c st result).reaction = eventCount st.reaction + 1
    ∧ fileCount (HuntT1050.body p c st result).reaction = fileCount st.reaction + 1
    ∧ (HuntT1050.body p c st result).findings.at_ result.pair = some true
    ∧ HuntT1050.Scan p c [result] = 2 := by
  have hM : (wfind result.ServiceName "mimikatz" || wfind result.ServiceName "mimidrv"
      || wfind (c.GetImagePathFromCommand result.ImagePath) "mimidrv.sys") = true := by
    rcases hmarker with h | h | h <;> simp [h]
  have hrule : firstMatch p c result.pair = Rule.Mimikatz := by
    simp only [firstMatch, EventLogItem.pair_fst, EventLogItem.pair_snd, hlolbin, hrule3,
      hpsexec, hM]
    simp
  have hbody : ∀ st' : ScanState, st'.findings.count result.pair = 0 →
      HuntT1050.body p c st' result =
        { detections := st'.detections + 2
          findings := (result.pair, true) :: st'.findings
          reaction := st'.reaction ++ [Notification.EventIdentified result,
            Notification.FileIdentified (c.GetImagePathFromCommand result.ImagePath)]
          calls := st'.calls ++ [Call.IsLolbinMalicious result.ImagePath,
            Call.GetImagePathFromCommand result.ImagePath,
            Call.File (c.GetImagePathFromCommand result.ImagePath),
            Call.GetFileExists (c.GetImagePathFromCommand result.ImagePath)]
            ++ (if c.GetFileExists (c.GetImagePathFromCommand result.ImagePath) then
                  [Call.GetFileSigned (c.GetImagePathFromCommand result.ImagePath)]
                else []) } := by
    intro st' h
    rw [body_fresh p c h]
    simp [helperCalls, hrule, Rule.severity, Rule.verdict, Rule.notifications,
      Rule.fileIdentified]
  refine ⟨hbody st hfresh, ?_, ?_, ?_, ?_, ?_⟩
  · rw [hbody st hfresh]
    by_cases hX : c.GetFileExists (c.GetImagePathFromCommand result.ImagePath) = true <;>
      simp [scanCount, Call.isScan, List.countP_append, hX]
  · rw [hbody st hfresh]
    simp [eventCount, Notification.isEvent, List.countP_append]
  · rw [hbody st hfresh]
    simp [fileCount, Notification.isFile, List.countP_append]
  · rw [hbody st hfresh]
    simp [Findings.at_, List.lookup]
  · rw [Scan_eq, loop_singleton, hbody _ (start_fresh _)]
    rfl

/-- C11 at a concrete input: the driver service `mimidrv`, whose image does not exist. -/
theorem C11_mimikatz_rule_witness :
    (demo 4).GetFileExists ((demo 4).GetImagePathFromCommand evMimidrv.ImagePath) = false
    ∧ HuntT1050.body .Normal (demo 4) HuntT1050.start evMimidrv =
        { detections := 2
          findings := [(evMimidrv.pair, true)]
          reaction := [Notification.BeginHunt, Notification.EventIdentified evMimidrv,
            Notification.FileIdentified "C:/Temp/mimidrv.sys"]
          calls := [Call.IsLolbinMalicious "C:/Temp/mimidrv.sys",
            Call.GetImagePathFromCommand "C:/Temp/mimidrv.sys", Call.File "C:/Temp/mimidrv.sys",
            Call.GetFileExists "C:/Temp/mimidrv.sys"] }
    ∧ HuntT1050.Scan .Normal (demo 4) [evMimidrv] = 2 :=
  have h := C11_mimikatz_rule .Normal (demo 4) HuntT1050.start evMimidrv (by decide)
    (by decide) (by decide) (by decide) (Or.inr (Or.inl (by decide)))
  ⟨by decide, h.1, h.2.2.2.2.2⟩

/-- C12 (Normal has no anomaly rule): in `ScanNormal` an event that reaches rule 6 (key not
in the map, no malicious lolbin, image not an existing unsigned file, no PSExec or Mimikatz
marker) is stored with the verdict false, adds 0 and emits nothing, and the entropy is never
computed. For any two entropy functions, all other helpers being the same, `ScanNormal`
ends in the same state on every event list: the same count, notifications, map and helper
calls. -/
theorem C12_normal_no_anomaly_rule (c : Collaborators) (st : ScanState)
    (result : EventLogItem)
    (hfresh : st.findings.count result.pair = 0)
    (hlolbin : c.IsLolbinMalicious result.ImagePath = false)
    (hrule3 : (c.GetFileExists (c.GetImagePathFromCommand result.ImagePath)
        && !c.GetFileSigned (c.GetImagePathFromCommand result.ImagePath)) = false)
    (hpsexec : wfind result.ServiceName "PSEXESVC" = false)
    (hmimikatz : wfind result.ServiceName "mimikatz" = false)
    (hmimidrv : wfind result.ServiceName "mimidrv" = false)
    (hdriver : wfind (c.GetImagePathFromCommand result.ImagePath) "mimidrv.sys" = false) :
    HuntT1050.ScanNormal.body c st result =
        { detections := st.detections
          findings := (result.pair, false) :: st.findings
          reaction := st.reaction
          calls := st.calls ++ [Call.IsLolbinMalicious result.ImagePath,
            Call.GetImagePathFromCommand result.ImagePath,
            Call.File (c.GetImagePathFromCommand result.ImagePath),
            Call.GetFileExists (c.GetImagePathFromCommand result.ImagePath)]
            ++ (if c.GetFileExists (c.GetImagePathFromCommand result.ImagePath) then
                  [Call.GetFileSigned (c.GetImagePathFromCommand result.ImagePath)]
                else []) }
    ∧ (∀ (entropy entropy' : String → ℚ) (queryResults : List EventLogItem),
        HuntT1050.ScanNormal.run { c with GetShannonEntropy := entropy } queryResults
          = HuntT1050.ScanNormal.run { c with GetShannonEntropy := entropy' } queryResults)
    ∧ (∀ (entropy entropy' : String → ℚ) (queryResults : List EventLogItem),
        HuntT1050.ScanNormal { c with GetShannonEntropy := entropy } queryResults
          = HuntT1050.ScanNormal { c with GetShannonEntropy := entropy' } queryResults) := by
  have hbody : ∀ entropy : String → ℚ,
      HuntT1050.ScanNormal.body { c with GetShannonEntropy := entropy }
        = HuntT1050.ScanNormal.body c := by
    intro entropy
    funext st' result'
    simp [HuntT1050.ScanNormal.body]
  have hrun : ∀ (entropy : String → ℚ) (queryResults : List EventLogItem),
      HuntT1050.ScanNormal.run { c with GetShannonEntropy := entropy } queryResults
        = HuntT1050.ScanNormal.run c queryResults := by
    intro entropy queryResults
    simp only [HuntT1050.ScanNormal.run, HuntT1050.ScanNormal.loop, hbody]
  refine ⟨?_, ?_, ?_⟩
  · have hrule : firstMatch .Normal c result.pair = Rule.NoDetection := by
      simp [firstMatch, anomalyTrigger, hlolbin, hrule3, hpsexec, hmimikatz, hmimidrv, hdriver]
    have := body_fresh .Normal c hfresh
    simp only [HuntT1050.body] at this
    rw [this]
    simp [helperCalls, anomalyCalls, hrule, Rule.severity, Rule.verdict, Rule.notifications,
      Rule.fileIdentified]
  · intro entropy entropy' queryResults
    rw [hrun entropy, hrun entropy']
  · intro entropy entropy' queryResults
    show (HuntT1050.ScanNormal.run _ queryResults).detections
      = (HuntT1050.ScanNormal.run _ queryResults).detections
    rw [hrun entropy, hrun entropy']

/-- C12 at a concrete input: a missing image and a name of entropy 6, which `ScanNormal`
leaves undetected. -/
theorem C12_normal_no_anomaly_rule_witness :
    (demo 6).GetShannonEntropy evMissing.ServiceName = 6
    ∧ HuntT1050.ScanNormal.body (demo 6) HuntT1050.start evMissing =
        { detections := 0
          findings := [(evMissing.pair, false)]
          reaction := [Notification.BeginHunt]
          calls := [Call.IsLolbinMalicious "C:/Temp/gone.exe",
            Call.GetImagePathFromCommand "C:/Temp/gone.exe", Call.File "C:/Temp/gone.exe",
            Call.GetFileExists "C:/Temp/gone.exe"] } :=
  ⟨rfl, (C12_normal_no_anomaly_rule (demo 6) HuntT1050.start evMissing (by decide) (by decide)
    (by decide) (by decide) (by decide) (by decide) (by decide)).1⟩

/-- C13 (re-notification): in either scan the number of "event identified" notifications is
the number of events of the list, repeats counted, whose key has the verdict true (in the
final map, which is the verdict of the first matching rule), and the number of "file
identified" notifications is the number of distinct keys whose severity (what a scan of the
key alone returns) is 2. Processing an event a second time emits no "file identified", and
one more "event identified" exactly when its verdict is true. -/
theorem C13_renotification (p : Profile) (c : Collaborators) (evs : List EventLogItem) :
    eventCount (HuntT1050.run p c evs).reaction
        = evs.countP (fun e =>
            decide ((HuntT1050.run p c evs).findings.at_ e.pair = some true))
    ∧ eventCount (HuntT1050.run p c evs).reaction
        = evs.countP (fun e => (firstMatch p c e.pair).verdict)
    ∧ fileCount (HuntT1050.run p c evs).reaction
        = (evs.map EventLogItem.pair).dedup.countP
            (fun k => decide ((firstMatch p c k).severity = 2))
    ∧ (∀ e : EventLogItem, HuntT1050.Scan p c [e] = (firstMatch p c e.pair).severity)
    ∧ (∀ (pre : List EventLogItem) (e : EventLogItem),
        fileCount (HuntT1050.loop p c (pre ++ [e, e])).reaction
            = fileCount (HuntT1050.loop p c (pre ++ [e])).reaction
        ∧ eventCount (HuntT1050.loop p c (pre ++ [e, e])).reaction
            = eventCount (HuntT1050.loop p c (pre ++ [e])).reaction
              + (if (firstMatch p c e.pair).verdict then 1 else 0)) := by
  have hev : eventCount (HuntT1050.run p c evs).reaction
      = evs.countP (fun e => (firstMatch p c e.pair).verdict) := by
    rw [run_eq, eventCount_finish, loop_eventCount, List.countP_map]
    rfl
  refine ⟨?_, hev, ?_, ?_, ?_⟩
  · rw [hev]
    apply List.countP_congr
    intro e he
    have hmem : e.pair ∈ evs.map EventLogItem.pair := List.mem_map_of_mem _ he
    have hl := loop_lookup p c evs e.pair
    rw [if_pos hmem] at hl
    rw [run_findings]
    simp only [Findings.at_, hl]
    cases (firstMatch p c e.pair).verdict <;> simp
  · rw [run_eq, fileCount_finish, loop_fileCount,
      (keepFirst_pair_perm_dedup evs).countP_eq]
    apply List.countP_congr
    intro k _
    rw [Rule.fileIdentified_eq]
  · intro e
    rw [Scan_eq, loop_singleton, body_fresh p c (start_fresh _)]
    simp [HuntT1050.start]
  · intro pre e
    have hsplit : pre ++ [e, e] = (pre ++ [e]) ++ [e] := by simp
    have hl := loop_lookup p c (pre ++ [e]) e.pair
    rw [if_pos (by simp)] at hl
    rw [hsplit, loop_snoc p c (pre ++ [e]) e, step_hit p c hl]
    cases (firstMatch p c e.pair).verdict <;>
      simp [eventCount, fileCount, Notification.isEvent, Notification.isFile,
        List.countP_append]

/-- C14 (first match wins): for an event whose key is not in the map, in either scan, the
rule applied is the first, in the order lolbin, unsigned binary, PSExec name, Mimikatz,
anomaly, whose condition holds (each rule is applied exactly when its condition holds and
no earlier one does; the anomaly condition exists in Intensive only), and nothing is
detected when none holds. The loop body adds the severity of that rule, emits its
notifications and inserts exactly one entry with its verdict: lolbin 1 and the event only;
unsigned binary 2, event and file, with the one content scan; PSExec 1 and the event only;
Mimikatz 2, event and file; anomaly 2, event and file; otherwise 0 and nothing. For every
event, cached or not: at most one "event identified" and one "file identified" are emitted,
a "file identified" only together with an "event identified", the stored verdict is true
exactly when an "event identified" was emitted, and 2 was added exactly when a "file
identified" was emitted. -/
theorem C14_first_match_wins (p : Profile) (c : Collaborators) (st : ScanState)
    (result : EventLogItem) (hfresh : st.findings.count result.pair = 0) :
    ((firstMatch p c result.pair = Rule.Lolbin ↔
        c.IsLolbinMalicious result.ImagePath = true)
      ∧ (firstMatch p c result.pair = Rule.Unsigned ↔
        c.IsLolbinMalicious result.ImagePath = false
        ∧ c.GetFileExists (c.GetImagePathFromCommand result.ImagePath) = true
        ∧ c.GetFileSigned (c.GetImagePathFromCommand result.ImagePath) = false)
      ∧ (firstMatch p c result.pair = Rule.PSExec ↔
        c.IsLolbinMalicious result.ImagePath = false
        ∧ (c.GetFileExists (c.GetImagePathFromCommand result.ImagePath)
            && !c.GetFileSigned (c.GetImagePathFromCommand result.ImagePath)) = false
        ∧ wfind result.ServiceName "PSEXESVC" = true)
      ∧ (firstMatch p c result.pair = Rule.Mimikatz ↔
        c.IsLolbinMalicious result.ImagePath = false
        ∧ (c.GetFileExists (c.GetImagePathFromCommand result.ImagePath)
            && !c.GetFileSigned (c.GetImagePathFromCommand result.ImagePath)) = false
        ∧ wfind result.ServiceName "PSEXESVC" = false
        ∧ (wfind result.ServiceName "mimikatz" = true ∨ wfind result.ServiceName "mimidrv" = true
          ∨ wfind (c.GetImagePathFromCommand result.ImagePath) "mimidrv.sys" = true))
      ∧ (firstMatch p c result.pair = Rule.Anomaly ↔
        c.IsLolbinMalicious result.ImagePath = false
        ∧ (c.GetFileExists (c.GetImagePathFromCommand result.ImagePath)
            && !c.GetFileSigned (c.GetImagePathFromCommand result.ImagePath)) = false
        ∧ wfind result.ServiceName "PSEXESVC" = false
        ∧ wfind result.ServiceName "mimikatz" = false
        ∧ wfind result.ServiceName "mimidrv" = false
        ∧ wfind (c.GetImagePathFromCommand result.ImagePath) "mimidrv.sys" = false
        ∧ p = Profile.Intensive
        ∧ (c.GetFileExists (c.GetImagePathFromCommand result.ImagePath) = false
          ∨ c.GetShannonEntropy result.ServiceName < 3.00
          ∨ c.GetShannonEntropy result.ServiceName > 5.00))
      ∧ (firstMatch p c result.pair = Rule.NoDetection ↔
        c.IsLolbinMalicious result.ImagePath = false
        ∧ (c.GetFileExists (c.GetImagePathFromCommand result.ImagePath)
            && !c.GetFileSigned (c.GetImagePathFromCommand result.ImagePath)) = false
        ∧ wfind result.ServiceName "PSEXESVC" = false
        ∧ wfind result.ServiceName "mimikatz" = false
        ∧ wfind result.ServiceName "mimidrv" = false
        ∧ wfind (c.GetImagePathFromCommand result.ImagePath) "mimidrv.sys" = false
        ∧ ¬ (p = Profile.Intensive
          ∧ (c.GetFileExists (c.GetImagePathFromCommand result.ImagePath) = false
            ∨ c.GetShannonEntropy result.ServiceName < 3.00
            ∨ c.GetShannonEntropy result.ServiceName > 5.00))))
    ∧ HuntT1050.body p c st result =
        { detections := st.detections + (firstMatch p c result.pair).severity
          findings := (result.pair, (firstMatch p c result.pair).verdict) :: st.findings
          reaction := st.reaction ++ (firstMatch p c result.pair).notifications c result
          calls := st.calls ++ helperCalls p c result.pair }
    ∧ (HuntT1050.body p c st result).findings.length = st.findings.length + 1
    ∧ scanCount (HuntT1050.body p c st result).calls = scanCount st.calls
        + (if firstMatch p c result.pair = Rule.Unsigned then 1 else 0)
    ∧ ((Rule.Lolbin.severity = 1 ∧ Rule.Lolbin.verdict = true
        ∧ Rule.Lolbin.notifications c result = [Notification.EventIdentified result])
      ∧ (Rule.Unsigned.severity = 2 ∧ Rule.Unsigned.verdict = true
        ∧ Rule.Unsigned.notifications c result = [Notification.EventIdentified result,
            Notification.FileIdentified (c.GetImagePathFromCommand result.ImagePath)])
      ∧ (Rule.PSExec.severity = 1 ∧ Rule.PSExec.verdict = true
        ∧ Rule.PSExec.notifications c result = [Notification.EventIdentified result])
      ∧ (Rule.Mimikatz.severity = 2 ∧ Rule.Mimikatz.verdict = true
        ∧ Rule.Mimikatz.notifications c result = [Notification.EventIdentified result,
            Notification.FileIdentified (c.GetImagePathFromCommand result.ImagePath)])
      ∧ (Rule.Anomaly.severity = 2 ∧ Rule.Anomaly.verdict = true
        ∧ Rule.Anomaly.notifications c result = [Notification.EventIdentified result,
            Notification.FileIdentified (c.GetImagePathFromCommand result.ImagePath)])
      ∧ (Rule.NoDetection.severity = 0 ∧ Rule.NoDetection.verdict = false
        ∧ Rule.NoDetection.notifications c result = []))
    ∧ (∀ (st' : ScanState) (e : EventLogItem),
        eventCount (HuntT1050.body p c st' e).reaction ≤ eventCount st'.reaction + 1
        ∧ eventCount st'.reaction ≤ eventCount (HuntT1050.body p c st' e).reaction
        ∧ fileCount (HuntT1050.body p c st' e).reaction ≤ fileCount st'.reaction + 1
        ∧ fileCount st'.reaction ≤ fileCount (HuntT1050.body p c st' e).reaction
        ∧ (fileCount (HuntT1050.body p c st' e).reaction = fileCount st'.reaction + 1 →
            eventCount (HuntT1050.body p c st' e).reaction = eventCount st'.reaction + 1)
        ∧ ((HuntT1050.body p c st' e).findings.at_ e.pair = some true ↔
            eventCount (HuntT1050.body p c st' e).reaction = eventCount st'.reaction + 1)
        ∧ ((HuntT1050.body p c st' e).detections = st'.detections + 2 ↔
            fileCount (HuntT1050.body p c st' e).reaction = fileCount st'.reaction + 1)) := by
  have hbody := body_fresh p c hfresh
  refine ⟨?_, hbody, ?_, ?_, ?_, ?_⟩
  · have := firstMatch_chain p c result.pair
    simpa only [EventLogItem.pair_fst, EventLogItem.pair_snd] using this
  · rw [hbody]
    simp
  · rw [hbody]
    have := scanCount_helperCalls p c result.pair
    simp only [scanCount] at this ⊢
    rw [List.countP_append, this]
  · simp [Rule.severity, Rule.verdict, Rule.notifications, Rule.fileIdentified]
  · intro st' e
    rw [body_eq_step]
    obtain ⟨h1, h2⟩ := step_counts p c st' e
    rw [h1, h2]
    simp only [Findings.at_]
    have himp : (step p c st' e).detections = st'.detections + 2 →
        (step p c st' e).findings.lookup e.pair = some true := by
      cases h : st'.findings.lookup e.pair with
      | some v => rw [step_hit p c h]; simp
      | none =>
        rw [step_miss p c h]
        cases firstMatch p c e.pair <;> simp [List.lookup, Rule.severity, Rule.verdict]
    by_cases ha : (step p c st' e).findings.lookup e.pair = some true <;>
    by_cases hb : (step p c st' e).detections = st'.detections + 2 <;>
    simp [ha, hb]
    exact ha (himp hb)

/-- C14 at a concrete input: a service named `PSEXESVC` whose command is a malicious lolbin is
classified by the lolbin rule. -/
theorem C14_first_match_wins_witness :
    wfind evWhoami.ServiceName "PSEXESVC" = true
    ∧ firstMatch .Intensive (demo 4) evWhoami.pair = Rule.Lolbin
    ∧ HuntT1050.body .Intensive (demo 4) HuntT1050.start evWhoami =
        { detections := HuntT1050.start.detections
            + (firstMatch .Intensive (demo 4) evWhoami.pair).severity
          findings := (evWhoami.pair, (firstMatch .Intensive (demo 4) evWhoami.pair).verdict)
            :: HuntT1050.start.findings
          reaction := HuntT1050.start.reaction
            ++ (firstMatch .Intensive (demo 4) evWhoami.pair).notifications (demo 4) evWhoami
          calls := HuntT1050.start.calls ++ helperCalls .Intensive (demo 4) evWhoami.pair } :=
  have h := C14_first_match_wins .Intensive (demo 4) HuntT1050.start evWhoami (by decide)
  ⟨by decide, h.1.1.2 (by decide), h.2.1⟩

/-- C15 (the map invariant): in either scan the map is empty before the first event, and
after the loop has processed any prefix `pre` of the events the keys of the map are exactly
the (ServiceName, ImagePath) pairs of the events processed, each once; an entry, once stored,
is never changed or removed by the events that follow (the old map is a tail of the new one
and every lookup that succeeded still gives the same value); and the value stored for a key
is the verdict of the first matching rule for that key, which is also what a scan of that
event alone stores: it depends on the key and the helpers only. Hence two events with equal
keys get the same verdict. -/
theorem C15_findings_invariant (p : Profile) (c : Collaborators)
    (pre post : List EventLogItem) :
    (HuntT1050.loop p c []).findings = []
    ∧ ((∀ k : Key, (HuntT1050.loop p c pre).findings.count k ≠ 0
        ↔ k ∈ pre.map EventLogItem.pair)
      ∧ (∀ k : Key, k ∈ (HuntT1050.loop p c pre).findings.keys
        ↔ k ∈ pre.map EventLogItem.pair)
      ∧ (HuntT1050.loop p c pre).findings.keys.Nodup)
    ∧ ((∀ (k : Key) (v : Bool), (HuntT1050.loop p c pre).findings.at_ k = some v →
        (HuntT1050.loop p c (pre ++ post)).findings.at_ k = some v)
      ∧ (HuntT1050.loop p c pre).findings <:+ (HuntT1050.loop p c (pre ++ post)).findings)
    ∧ ((∀ (k : Key) (v : Bool), (HuntT1050.loop p c pre).findings.at_ k = some v →
        v = (firstMatch p c k).verdict)
      ∧ (∀ k : Key, (HuntT1050.loop p c pre).findings.at_ k
          = if k ∈ pre.map EventLogItem.pair then some (firstMatch p c k).verdict else none)
      ∧ (∀ e : EventLogItem, e ∈ pre →
          (HuntT1050.loop p c pre).findings.at_ e.pair
            = (HuntT1050.loop p c [e]).findings.at_ e.pair
          ∧ (HuntT1050.loop p c [e]).findings.at_ e.pair
            = some (firstMatch p c e.pair).verdict))
    ∧ (∀ (a mid : List EventLogItem) (e e' : EventLogItem), e'.pair = e.pair →
        (HuntT1050.loop p c (a ++ e :: mid ++ [e'])).findings.at_ e'.pair
          = (HuntT1050.loop p c (a ++ [e])).findings.at_ e.pair
        ∧ (HuntT1050.loop p c (a ++ [e])).findings.at_ e.pair
          = some (firstMatch p c e.pair).verdict) := by
  have hkeys : (HuntT1050.loop p c pre).findings.keys
      = ((keepFirst [] pre).map EventLogItem.pair).reverse := by
    rw [loop_findings]
    simp [Findings.keys, List.map_reverse, Function.comp_def]
  have hmem : ∀ k : Key, k ∈ (HuntT1050.loop p c pre).findings.keys
      ↔ k ∈ pre.map EventLogItem.pair := by
    intro k
    rw [hkeys, List.mem_reverse, mem_keepFirst_pair]
    simp
  refine ⟨?_, ⟨?_, hmem, ?_⟩, ⟨?_, ?_⟩, ⟨?_, ?_, ?_⟩, ?_⟩
  · rw [loop_findings]
    rfl
  · intro k
    rw [← hmem k, Ne, Findings.count_eq_zero_iff, Findings.lookup_eq_none_iff]
    exact not_not
  · rw [hkeys, List.nodup_reverse]
    exact nodup_keepFirst_pair pre []
  · intro k v hstored
    have hlook : (HuntT1050.loop p c pre).findings.lookup k = some v := hstored
    show (HuntT1050.loop p c (pre ++ post)).findings.lookup k = some v
    rw [loop_eq_foldl, List.foldl_append]
    rw [loop_eq_foldl] at hlook
    exact foldl_step_lookup_of_some p c post _ hlook
  · rw [loop_eq_foldl, loop_eq_foldl, List.foldl_append,
      (foldl_step_core p c post (pre.foldl (step p c) HuntT1050.start)).2.1]
    exact List.suffix_append _ _
  · intro k v hstored
    have hcons : Consistent p c (HuntT1050.loop p c pre).findings := by
      rw [loop_eq_foldl]
      exact foldl_step_consistent p c pre _ (start_consistent p c)
    exact hcons k v hstored
  · intro k
    exact loop_lookup p c pre k
  · intro e he
    have h1 : (HuntT1050.loop p c [e]).findings.lookup e.pair
        = some (firstMatch p c e.pair).verdict := by
      rw [loop_lookup, if_pos (by simp)]
    refine ⟨?_, h1⟩
    show (HuntT1050.loop p c pre).findings.lookup e.pair
      = (HuntT1050.loop p c [e]).findings.lookup e.pair
    rw [h1, loop_lookup, if_pos (List.mem_map_of_mem _ he)]
  · intro a mid e e' hkey
    have h1 : (HuntT1050.loop p c (a ++ [e])).findings.lookup e.pair
        = some (firstMatch p c e.pair).verdict := by
      rw [loop_lookup, if_pos (by simp)]
    refine ⟨?_, h1⟩
    show (HuntT1050.loop p c (a ++ e :: mid ++ [e'])).findings.lookup e'.pair
      = (HuntT1050.loop p c (a ++ [e])).findings.lookup e.pair
    rw [h1, loop_lookup, if_pos (by simp), hkey]

/-- C15 at a concrete input: the lolbin service is in the map once it has been processed,
and the verdict stored for it stays when an unsigned service and a repeat follow. -/
theorem C15_findings_invariant_witness :
    (HuntT1050.loop .Normal (demo 4) [evWhoami]).findings.at_ evWhoami.pair = some true
    ∧ (HuntT1050.loop .Normal (demo 4) [evWhoami]).findings.count evWhoami.pair ≠ 0
    ∧ (HuntT1050.loop .Normal (demo 4) ([evWhoami] ++ [evUpdater, evWhoamiAgain])).findings.at_
        evWhoami.pair = some true
    ∧ true = (firstMatch .Normal (demo 4) evWhoami.pair).verdict :=
  have h := C15_findings_invariant .Normal (demo 4) [evWhoami] [evUpdater, evWhoamiAgain]
  ⟨by decide, (h.2.1.1 evWhoami.pair).2 (by decide), h.2.2.1.1 evWhoami.pair true (by decide),
    h.2.2.2.1.1 evWhoami.pair true (by decide)⟩

/-- C16 (the profiles differ at rule 6 only): for an event whose key matches one of the
rules 2 to 5 (lolbin, unsigned binary, PSExec, Mimikatz), the loop bodies of `ScanIntensive`
and `ScanNormal` act alike on every state, and inside any list the two scans add the same
severity, emit the same notifications and store the same verdict for that event. For every
event list the two final maps have the same keys, every key with the verdict true under
Normal has it under Intensive, and the Intensive count is the Normal count plus 2 for each
distinct key that reaches rule 6 and satisfies the Intensive anomaly condition; so it is
never smaller, and equal when the list has no such key. -/
theorem C16_profiles_differ_only_at_rule6 (c : Collaborators)
    (evs pre : List EventLogItem) (e : EventLogItem)
    (hmatch : c.IsLolbinMalicious e.ImagePath = true
      ∨ (c.GetFileExists (c.GetImagePathFromCommand e.ImagePath)
          && !c.GetFileSigned (c.GetImagePathFromCommand e.ImagePath)) = true
      ∨ wfind e.ServiceName "PSEXESVC" = true
      ∨ wfind e.ServiceName "mimikatz" = true
      ∨ wfind e.ServiceName "mimidrv" = true
      ∨ wfind (c.GetImagePathFromCommand e.ImagePath) "mimidrv.sys" = true) :
    (∀ st : ScanState, HuntT1050.ScanIntensive.body c st e = HuntT1050.ScanNormal.body c st e)
    ∧ (∃ (severity : Int) (notes : List Notification) (verdict : Bool),
        (HuntT1050.ScanIntensive.loop c (pre ++ [e])).detections
            = (HuntT1050.ScanIntensive.loop c pre).detections + severity
        ∧ (HuntT1050.ScanNormal.loop c (pre ++ [e])).detections
            = (HuntT1050.ScanNormal.loop c pre).detections + severity
        ∧ (HuntT1050.ScanIntensive.loop c (pre ++ [e])).reaction
            = (HuntT1050.ScanIntensive.loop c pre).reaction ++ notes
        ∧ (HuntT1050.ScanNormal.loop c (pre ++ [e])).reaction
            = (HuntT1050.ScanNormal.loop c pre).reaction ++ notes
        ∧ (HuntT1050.ScanIntensive.loop c (pre ++ [e])).findings.at_ e.pair = some verdict
        ∧ (HuntT1050.ScanNormal.loop c (pre ++ [e])).findings.at_ e.pair = some verdict)
    ∧ (∀ k : Key, (HuntT1050.ScanIntensive.run c evs).findings.count k
        = (HuntT1050.ScanNormal.run c evs).findings.count k)
    ∧ (∀ k : Key, (HuntT1050.ScanNormal.run c evs).findings.at_ k = some true →
        (HuntT1050.ScanIntensive.run c evs).findings.at_ k = some true)
    ∧ HuntT1050.ScanIntensive c evs = HuntT1050.ScanNormal c evs
        + 2 * ((evs.map EventLogItem.pair).dedup.countP (anomalousKey c) : Int)
    ∧ HuntT1050.ScanNormal c evs ≤ HuntT1050.ScanIntensive c evs
    ∧ ((∀ k : Key, k ∈ evs.map EventLogItem.pair → anomalousKey c k = false) →
        HuntT1050.ScanIntensive c evs = HuntT1050.ScanNormal c evs) := by
  have hne : firstMatch .Normal c e.pair ≠ Rule.NoDetection := by
    intro hn
    rw [firstMatch_normal_noDetection_iff] at hn
    obtain ⟨h1, h2, h3, h4, h5, h6⟩ := hn
    simp only [EventLogItem.pair_fst, EventLogItem.pair_snd] at h1 h2 h3 h4 h5 h6
    rcases hmatch with h | h | h | h | h | h
    · rw [h1] at h; exact Bool.noConfusion h
    · rw [h2] at h; exact Bool.noConfusion h
    · rw [h3] at h; exact Bool.noConfusion h
    · rw [h4] at h; exact Bool.noConfusion h
    · rw [h5] at h; exact Bool.noConfusion h
    · rw [h6] at h; exact Bool.noConfusion h
  have hfm := firstMatch_intensive_of_match hne
  have hlookup : ∀ (p : Profile) (k : Key), (HuntT1050.run p c evs).findings.lookup k
      = if k ∈ evs.map EventLogItem.pair then some (firstMatch p c k).verdict else none := by
    intro p k
    rw [run_findings, loop_lookup]
  have hdiff : HuntT1050.Scan .Intensive c evs = HuntT1050.Scan .Normal c evs
      + 2 * ((evs.map EventLogItem.pair).dedup.countP (anomalousKey c) : Int) := by
    have hfun : (fun k => decide (firstMatch .Intensive c k = Rule.Anomaly))
        = anomalousKey c := by
      funext k
      rw [anomalousKey_eq]
    rw [Scan_eq, Scan_eq, loop_detections, loop_detections, sum_severity_intensive,
      (keepFirst_pair_perm_dedup evs).countP_eq, hfun]
  refine ⟨?_, ?_, ?_, ?_, hdiff, ?_, ?_⟩
  · intro st
    show HuntT1050.body .Intensive c st e = HuntT1050.body .Normal c st e
    rw [body_eq_step, body_eq_step]
    exact step_intensive_of_match hne st
  · obtain ⟨hI1, hI2, hI3⟩ := loop_snoc_effect .Intensive c pre e
    obtain ⟨hN1, hN2, hN3⟩ := loop_snoc_effect .Normal c pre e
    rw [hfm] at hI1 hI2 hI3
    exact ⟨_, _, _, hI1, hN1, hI2, hN2, hI3, hN3⟩
  · intro k
    show (HuntT1050.run .Intensive c evs).findings.count k
      = (HuntT1050.run .Normal c evs).findings.count k
    simp only [Findings.count, hlookup]
    by_cases hm : k ∈ evs.map EventLogItem.pair <;> simp [hm]
  · intro k hk
    have hk' : (HuntT1050.run .Normal c evs).findings.lookup k = some true := hk
    show (HuntT1050.run .Intensive c evs).findings.lookup k = some true
    rw [hlookup] at hk' ⊢
    by_cases hm : k ∈ evs.map EventLogItem.pair
    · rw [if_pos hm] at hk' ⊢
      rw [verdict_intensive_of_normal c k (Option.some.inj hk')]
    · rw [if_neg hm] at hk'
      exact Option.noConfusion hk'
  · show HuntT1050.Scan .Normal c evs ≤ HuntT1050.Scan .Intensive c evs
    rw [hdiff]
    have : (0 : Int) ≤ ((evs.map EventLogItem.pair).dedup.countP (anomalousKey c) : Int) :=
      Int.natCast_nonneg _
    omega
  · intro hnone
    show HuntT1050.Scan .Intensive c evs = HuntT1050.Scan .Normal c evs
    rw [hdiff]
    have hz : (evs.map EventLogItem.pair).dedup.countP (anomalousKey c) = 0 := by
      rw [List.countP_eq_zero]
      intro k hk
      rw [hnone k (List.mem_dedup.1 hk)]
      exact Bool.false_ne_true
    rw [hz]
    simp

/-- C16 at a concrete input: the unsigned service after a service with a missing image, which
only Intensive detects. -/
theorem C16_profiles_differ_only_at_rule6_witness :
    ((demo 4).GetFileExists ((demo 4).GetImagePathFromCommand evUpdater.ImagePath)
        && !(demo 4).GetFileSigned ((demo 4).GetImagePathFromCommand evUpdater.ImagePath))
      = true
    ∧ HuntT1050.ScanIntensive.body (demo 4) HuntT1050.start evUpdater
        = HuntT1050.ScanNormal.body (demo 4) HuntT1050.start evUpdater
    ∧ HuntT1050.ScanIntensive (demo 4) [evMissing, evUpdater]
        = HuntT1050.ScanNormal (demo 4) [evMissing, evUpdater]
          + 2 * ((([evMissing, evUpdater].map EventLogItem.pair).dedup.countP
              (anomalousKey (demo 4)) : Nat) : Int) :=
  have h := C16_profiles_differ_only_at_rule6 (demo 4) [evMissing, evUpdater] [evMissing]
    evUpdater (Or.inr (Or.inl (by decide)))
  ⟨by decide, h.1 HuntT1050.start, h.2.2.2.2.1⟩

/-- C17 (benign in Intensive): after `ScanIntensive` a key is stored with the verdict false
exactly when it is the key of one of the events, its command is no malicious lolbin, its
extracted image file exists and is signed, its service name contains none of `PSEXESVC`,
`mimikatz`, `mimidrv`, its extracted image path does not contain `mimidrv.sys`, and the
entropy e of its service name satisfies 3.00 <= e <= 5.00, both bounds included. The same
holds for the entry the loop body stores for a key that is not yet in the map. So a key whose
image file is missing is never stored as benign. -/
theorem C17_benign_in_intensive (c : Collaborators) (evs : List EventLogItem) (k : Key) :
    ((HuntT1050.ScanIntensive.run c evs).findings.at_ k = some false ↔
      k ∈ evs.map EventLogItem.pair
      ∧ c.IsLolbinMalicious k.2 = false
      ∧ c.GetFileExists (c.GetImagePathFromCommand k.2) = true
      ∧ c.GetFileSigned (c.GetImagePathFromCommand k.2) = true
      ∧ wfind k.1 "PSEXESVC" = false
      ∧ wfind k.1 "mimikatz" = false ∧ wfind k.1 "mimidrv" = false
      ∧ wfind (c.GetImagePathFromCommand k.2) "mimidrv.sys" = false
      ∧ 3.00 ≤ c.GetShannonEntropy k.1 ∧ c.GetShannonEntropy k.1 ≤ 5.00)
    ∧ (∀ (st : ScanState) (e : EventLogItem), st.findings.count e.pair = 0 →
        ((HuntT1050.ScanIntensive.body c st e).findings.at_ e.pair = some false ↔
          c.IsLolbinMalicious e.ImagePath = false
          ∧ c.GetFileExists (c.GetImagePathFromCommand e.ImagePath) = true
          ∧ c.GetFileSigned (c.GetImagePathFromCommand e.ImagePath) = true
          ∧ wfind e.ServiceName "PSEXESVC" = false
          ∧ wfind e.ServiceName "mimikatz" = false ∧ wfind e.ServiceName "mimidrv" = false
          ∧ wfind (c.GetImagePathFromCommand e.ImagePath) "mimidrv.sys" = false
          ∧ 3.00 ≤ c.GetShannonEntropy e.ServiceName
          ∧ c.GetShannonEntropy e.ServiceName ≤ 5.00))
    ∧ (c.GetFileExists (c.GetImagePathFromCommand k.2) = false →
        (HuntT1050.ScanIntensive.run c evs).findings.at_ k ≠ some false) := by
  have hmain : (HuntT1050.ScanIntensive.run c evs).findings.at_ k = some false ↔
      k ∈ evs.map EventLogItem.pair
      ∧ c.IsLolbinMalicious k.2 = false
      ∧ c.GetFileExists (c.GetImagePathFromCommand k.2) = true
      ∧ c.GetFileSigned (c.GetImagePathFromCommand k.2) = true
      ∧ wfind k.1 "PSEXESVC" = false
      ∧ wfind k.1 "mimikatz" = false ∧ wfind k.1 "mimidrv" = false
      ∧ wfind (c.GetImagePathFromCommand k.2) "mimidrv.sys" = false
      ∧ 3.00 ≤ c.GetShannonEntropy k.1 ∧ c.GetShannonEntropy k.1 ≤ 5.00 := by
    show (HuntT1050.run .Intensive c evs).findings.lookup k = some false ↔ _
    rw [run_findings, loop_lookup, lit_three, lit_five,
      ← firstMatch_intensive_noDetection_iff, ← Rule.verdict_eq_false_iff]
    by_cases hm : k ∈ evs.map EventLogItem.pair
    · rw [if_pos hm]
      simp [hm]
    · rw [if_neg hm]
      simp [hm]
  refine ⟨hmain, ?_, ?_⟩
  · intro st e hfresh
    have hb := body_fresh .Intensive c hfresh
    simp only [HuntT1050.body] at hb
    rw [hb, lit_three, lit_five]
    have := firstMatch_intensive_noDetection_iff c e.pair
    simp only [EventLogItem.pair_fst, EventLogItem.pair_snd] at this
    rw [← this, ← Rule.verdict_eq_false_iff]
    simp [Findings.at_, List.lookup]
  · intro hmissing hbenign
    have := (hmain.1 hbenign).2.2.1
    rw [hmissing] at this
    exact Bool.noConfusion this

/-- C17 at a concrete input: a signed, existing image with a name of entropy 4 is stored as
benign by `ScanIntensive`, a missing image is not. -/
theorem C17_benign_in_intensive_witness :
    (HuntT1050.ScanIntensive.run (demo 4) [evSigned, evMissing]).findings.at_ evSigned.pair
      = some false
    ∧ (HuntT1050.ScanIntensive.run (demo 4) [evSigned, evMissing]).findings.at_ evMissing.pair
      ≠ some false :=
  have h := C17_benign_in_intensive (demo 4) [evSigned, evMissing]
  ⟨((h evSigned.pair).1).2 ⟨by decide, by decide, by decide, by decide, by decide, by decide,
      by decide, by decide,
      by show (3.00 : ℚ) ≤ 4; norm_num, by show (4 : ℚ) ≤ 5.00; norm_num⟩,
    (h evMissing.pair).2.2 (by decide)⟩

end Hunts
